import Mathlib

/-!
# The corlib internal-call dispatch table

A shallow embedding of the generated header `icall-table.h`
(`src/PoSnakeGame.Wa/obj/Release/net9.0/wasm/for-publish/icall-table.h`).
The header is pure data: a token table, the prototypes of the native
routines, a table of pointers to those routines and a table of flag bytes.
The tables are transcribed element by element, in file order.  The header
has no resolver and no table constructor of its own; those two mechanisms
are modelled from the specification and are marked as such.
-/

namespace IcallTable

set_option maxRecDepth 100000

/-- The C types that occur in the prototypes of the header. -/
inductive CType where
  | void
  | int
  | int64_t
  | double
  deriving DecidableEq, Repr

/-- A prototype `ret name (params);` of the header. -/
structure Proto where
  ret : CType
  name : String
  params : List CType
  deriving DecidableEq, Repr

/-- The array `static int corlib_icall_indexes []` (header lines 3-207): the icall
tokens, one C `int` per element, in file order. -/
def corlib_icall_indexes : List Int :=
  [216, 227, 228, 229, 230, 231, 232, 233, 234, 235, 238, 239,
   357, 358, 359, 387, 388, 389, 416, 417, 418, 510, 511, 512,
   515, 554, 555, 557, 559, 561, 563, 568, 576, 577, 578, 579,
   580, 581, 582, 583, 584, 673, 682, 683, 752, 759, 762, 764,
   769, 770, 772, 773, 777, 778, 780, 781, 784, 785, 786, 789,
   791, 794, 796, 798, 807, 873, 875, 877, 887, 888, 889, 891,
   897, 898, 899, 900, 901, 909, 910, 911, 915, 916, 918, 920,
   1135, 1313, 1314, 7535, 7536, 7538, 7539, 7540, 7541, 7542, 7544, 7545,
   7546, 7547, 7564, 7566, 7571, 7573, 7575, 7577, 7628, 7629, 7631, 7632,
   7633, 7634, 7635, 7637, 7639, 8686, 8690, 8692, 8693, 8694, 8695, 9113,
   9114, 9115, 9116, 9134, 9135, 9136, 9181, 9262, 9265, 9273, 9274, 9275,
   9276, 9277, 9622, 9626, 9627, 9656, 9691, 9698, 9705, 9716, 9719, 9742,
   9820, 9822, 9832, 9834, 9835, 9842, 9858, 9878, 9879, 9887, 9889, 9896,
   9897, 9900, 9902, 9907, 9913, 9914, 9921, 9923, 9935, 9938, 9939, 9940,
   9951, 9961, 9967, 9968, 9969, 9971, 9972, 9989, 9991, 10006, 10024, 10051,
   10081, 10082, 10571, 10657, 10658, 10870, 10871, 10878, 10879, 10880, 10885, 10940,
   11433, 11434, 11819, 11821, 11822, 11828, 11838, 12812, 12833, 12835, 12837]

/-- The prototypes declared between the token table and the pointer table
(header lines 208-410), in file order. -/
def corlib_icall_prototypes : List Proto :=
  [Proto.mk .void "ves_icall_System_Array_InternalCreate" [.int, .int, .int, .int, .int],
   Proto.mk .int "ves_icall_System_Array_GetCorElementTypeOfElementTypeInternal" [.int],
   Proto.mk .int "ves_icall_System_Array_IsValueOfElementTypeInternal" [.int, .int],
   Proto.mk .int "ves_icall_System_Array_CanChangePrimitive" [.int, .int, .int],
   Proto.mk .int "ves_icall_System_Array_FastCopy" [.int, .int, .int, .int, .int],
   Proto.mk .int "ves_icall_System_Array_GetLengthInternal_raw" [.int, .int, .int],
   Proto.mk .int "ves_icall_System_Array_GetLowerBoundInternal_raw" [.int, .int, .int],
   Proto.mk .void "ves_icall_System_Array_GetGenericValue_icall" [.int, .int, .int],
   Proto.mk .void "ves_icall_System_Array_GetValueImpl_raw" [.int, .int, .int, .int],
   Proto.mk .void "ves_icall_System_Array_SetGenericValue_icall" [.int, .int, .int],
   Proto.mk .void "ves_icall_System_Array_SetValueImpl_raw" [.int, .int, .int, .int],
   Proto.mk .void "ves_icall_System_Array_SetValueRelaxedImpl_raw" [.int, .int, .int, .int],
   Proto.mk .void "ves_icall_System_Runtime_RuntimeImports_ZeroMemory" [.int, .int],
   Proto.mk .void "ves_icall_System_Runtime_RuntimeImports_Memmove" [.int, .int, .int],
   Proto.mk .void "ves_icall_System_Buffer_BulkMoveWithWriteBarrier" [.int, .int, .int, .int],
   Proto.mk .int "ves_icall_System_Delegate_AllocDelegateLike_internal_raw" [.int, .int],
   Proto.mk .int "ves_icall_System_Delegate_CreateDelegate_internal_raw" [.int, .int, .int, .int, .int],
   Proto.mk .int "ves_icall_System_Delegate_GetVirtualMethod_internal_raw" [.int, .int],
   Proto.mk .void "ves_icall_System_Enum_GetEnumValuesAndNames_raw" [.int, .int, .int, .int],
   Proto.mk .int "ves_icall_System_Enum_InternalGetCorElementType" [.int],
   Proto.mk .void "ves_icall_System_Enum_InternalGetUnderlyingType_raw" [.int, .int, .int],
   Proto.mk .int "ves_icall_System_Environment_get_ProcessorCount" [],
   Proto.mk .int "ves_icall_System_Environment_get_TickCount" [],
   Proto.mk .int64_t "ves_icall_System_Environment_get_TickCount64" [],
   Proto.mk .void "ves_icall_System_Environment_FailFast_raw" [.int, .int, .int, .int],
   Proto.mk .void "ves_icall_System_GC_register_ephemeron_array_raw" [.int, .int],
   Proto.mk .int "ves_icall_System_GC_get_ephemeron_tombstone_raw" [.int],
   Proto.mk .void "ves_icall_System_GC_SuppressFinalize_raw" [.int, .int],
   Proto.mk .void "ves_icall_System_GC_ReRegisterForFinalize_raw" [.int, .int],
   Proto.mk .void "ves_icall_System_GC_GetGCMemoryInfo" [.int, .int, .int, .int, .int, .int],
   Proto.mk .int "ves_icall_System_GC_AllocPinnedArray_raw" [.int, .int, .int],
   Proto.mk .int "ves_icall_System_Object_MemberwiseClone_raw" [.int, .int],
   Proto.mk .double "ves_icall_System_Math_Ceiling" [.double],
   Proto.mk .double "ves_icall_System_Math_Cos" [.double],
   Proto.mk .double "ves_icall_System_Math_Floor" [.double],
   Proto.mk .double "ves_icall_System_Math_Log" [.double],
   Proto.mk .double "ves_icall_System_Math_Pow" [.double, .double],
   Proto.mk .double "ves_icall_System_Math_Sin" [.double],
   Proto.mk .double "ves_icall_System_Math_Sqrt" [.double],
   Proto.mk .double "ves_icall_System_Math_Tan" [.double],
   Proto.mk .double "ves_icall_System_Math_ModF" [.double, .int],
   Proto.mk .int "ves_icall_RuntimeMethodHandle_GetFunctionPointer_raw" [.int, .int],
   Proto.mk .void "ves_icall_RuntimeMethodHandle_ReboxFromNullable_raw" [.int, .int, .int],
   Proto.mk .void "ves_icall_RuntimeMethodHandle_ReboxToNullable_raw" [.int, .int, .int, .int],
   Proto.mk .int "ves_icall_RuntimeType_GetCorrespondingInflatedMethod_raw" [.int, .int, .int],
   Proto.mk .void "ves_icall_RuntimeType_make_array_type_raw" [.int, .int, .int, .int],
   Proto.mk .void "ves_icall_RuntimeType_make_byref_type_raw" [.int, .int, .int],
   Proto.mk .void "ves_icall_RuntimeType_make_pointer_type_raw" [.int, .int, .int],
   Proto.mk .void "ves_icall_RuntimeType_MakeGenericType_raw" [.int, .int, .int, .int],
   Proto.mk .int "ves_icall_RuntimeType_GetMethodsByName_native_raw" [.int, .int, .int, .int, .int],
   Proto.mk .int "ves_icall_RuntimeType_GetPropertiesByName_native_raw" [.int, .int, .int, .int, .int],
   Proto.mk .int "ves_icall_RuntimeType_GetConstructors_native_raw" [.int, .int, .int],
   Proto.mk .int "ves_icall_System_RuntimeType_CreateInstanceInternal_raw" [.int, .int],
   Proto.mk .void "ves_icall_RuntimeType_GetDeclaringMethod_raw" [.int, .int, .int],
   Proto.mk .void "ves_icall_System_RuntimeType_getFullName_raw" [.int, .int, .int, .int, .int],
   Proto.mk .void "ves_icall_RuntimeType_GetGenericArgumentsInternal_raw" [.int, .int, .int, .int],
   Proto.mk .int "ves_icall_RuntimeType_GetGenericParameterPosition" [.int],
   Proto.mk .int "ves_icall_RuntimeType_GetEvents_native_raw" [.int, .int, .int, .int],
   Proto.mk .int "ves_icall_RuntimeType_GetFields_native_raw" [.int, .int, .int, .int, .int],
   Proto.mk .void "ves_icall_RuntimeType_GetInterfaces_raw" [.int, .int, .int],
   Proto.mk .int "ves_icall_RuntimeType_GetNestedTypes_native_raw" [.int, .int, .int, .int, .int],
   Proto.mk .void "ves_icall_RuntimeType_GetDeclaringType_raw" [.int, .int, .int],
   Proto.mk .void "ves_icall_RuntimeType_GetName_raw" [.int, .int, .int],
   Proto.mk .void "ves_icall_RuntimeType_GetNamespace_raw" [.int, .int, .int],
   Proto.mk .int "ves_icall_RuntimeType_FunctionPointerReturnAndParameterTypes_raw" [.int, .int],
   Proto.mk .int "ves_icall_RuntimeTypeHandle_GetAttributes" [.int],
   Proto.mk .int "ves_icall_RuntimeTypeHandle_GetMetadataToken_raw" [.int, .int],
   Proto.mk .void "ves_icall_RuntimeTypeHandle_GetGenericTypeDefinition_impl_raw" [.int, .int, .int],
   Proto.mk .int "ves_icall_RuntimeTypeHandle_GetCorElementType" [.int],
   Proto.mk .int "ves_icall_RuntimeTypeHandle_HasInstantiation" [.int],
   Proto.mk .int "ves_icall_RuntimeTypeHandle_IsInstanceOfType_raw" [.int, .int, .int],
   Proto.mk .int "ves_icall_RuntimeTypeHandle_HasReferences_raw" [.int, .int],
   Proto.mk .int "ves_icall_RuntimeTypeHandle_GetArrayRank_raw" [.int, .int],
   Proto.mk .void "ves_icall_RuntimeTypeHandle_GetAssembly_raw" [.int, .int, .int],
   Proto.mk .void "ves_icall_RuntimeTypeHandle_GetElementType_raw" [.int, .int, .int],
   Proto.mk .void "ves_icall_RuntimeTypeHandle_GetModule_raw" [.int, .int, .int],
   Proto.mk .void "ves_icall_RuntimeTypeHandle_GetBaseType_raw" [.int, .int, .int],
   Proto.mk .int "ves_icall_RuntimeTypeHandle_type_is_assignable_from_raw" [.int, .int, .int],
   Proto.mk .int "ves_icall_RuntimeTypeHandle_IsGenericTypeDefinition" [.int],
   Proto.mk .int "ves_icall_RuntimeTypeHandle_GetGenericParameterInfo_raw" [.int, .int],
   Proto.mk .int "ves_icall_RuntimeTypeHandle_is_subclass_of_raw" [.int, .int, .int],
   Proto.mk .int "ves_icall_RuntimeTypeHandle_IsByRefLike_raw" [.int, .int],
   Proto.mk .void "ves_icall_System_RuntimeTypeHandle_internal_from_name_raw" [.int, .int, .int, .int, .int, .int],
   Proto.mk .int "ves_icall_System_String_FastAllocateString_raw" [.int, .int],
   Proto.mk .int "ves_icall_System_Type_internal_from_handle_raw" [.int, .int],
   Proto.mk .int "ves_icall_System_ValueType_InternalGetHashCode_raw" [.int, .int, .int],
   Proto.mk .int "ves_icall_System_ValueType_Equals_raw" [.int, .int, .int, .int],
   Proto.mk .int "ves_icall_System_Threading_Interlocked_CompareExchange_Int" [.int, .int, .int],
   Proto.mk .void "ves_icall_System_Threading_Interlocked_CompareExchange_Object" [.int, .int, .int, .int],
   Proto.mk .int "ves_icall_System_Threading_Interlocked_Decrement_Int" [.int],
   Proto.mk .int "ves_icall_System_Threading_Interlocked_Increment_Int" [.int],
   Proto.mk .int64_t "ves_icall_System_Threading_Interlocked_Increment_Long" [.int],
   Proto.mk .int "ves_icall_System_Threading_Interlocked_Exchange_Int" [.int, .int],
   Proto.mk .void "ves_icall_System_Threading_Interlocked_Exchange_Object" [.int, .int, .int],
   Proto.mk .int64_t "ves_icall_System_Threading_Interlocked_CompareExchange_Long" [.int, .int64_t, .int64_t],
   Proto.mk .int64_t "ves_icall_System_Threading_Interlocked_Exchange_Long" [.int, .int64_t],
   Proto.mk .int "ves_icall_System_Threading_Interlocked_Add_Int" [.int, .int],
   Proto.mk .int64_t "ves_icall_System_Threading_Interlocked_Add_Long" [.int, .int64_t],
   Proto.mk .void "ves_icall_System_Threading_Monitor_Monitor_Enter_raw" [.int, .int],
   Proto.mk .void "mono_monitor_exit_icall_raw" [.int, .int],
   Proto.mk .void "ves_icall_System_Threading_Monitor_Monitor_pulse_raw" [.int, .int],
   Proto.mk .void "ves_icall_System_Threading_Monitor_Monitor_pulse_all_raw" [.int, .int],
   Proto.mk .int "ves_icall_System_Threading_Monitor_Monitor_wait_raw" [.int, .int, .int, .int],
   Proto.mk .void "ves_icall_System_Threading_Monitor_Monitor_try_enter_with_atomic_var_raw" [.int, .int, .int, .int, .int],
   Proto.mk .void "ves_icall_System_Threading_Thread_InitInternal_raw" [.int, .int],
   Proto.mk .int "ves_icall_System_Threading_Thread_GetCurrentThread" [],
   Proto.mk .void "ves_icall_System_Threading_InternalThread_Thread_free_internal_raw" [.int, .int],
   Proto.mk .int "ves_icall_System_Threading_Thread_GetState_raw" [.int, .int],
   Proto.mk .void "ves_icall_System_Threading_Thread_SetState_raw" [.int, .int, .int],
   Proto.mk .void "ves_icall_System_Threading_Thread_ClrState_raw" [.int, .int, .int],
   Proto.mk .void "ves_icall_System_Threading_Thread_SetName_icall_raw" [.int, .int, .int, .int],
   Proto.mk .int "ves_icall_System_Threading_Thread_YieldInternal" [],
   Proto.mk .void "ves_icall_System_Threading_Thread_SetPriority_raw" [.int, .int, .int],
   Proto.mk .void "ves_icall_System_Runtime_Loader_AssemblyLoadContext_PrepareForAssemblyLoadContextRelease_raw" [.int, .int, .int],
   Proto.mk .int "ves_icall_System_Runtime_Loader_AssemblyLoadContext_GetLoadContextForAssembly_raw" [.int, .int],
   Proto.mk .int "ves_icall_System_Runtime_Loader_AssemblyLoadContext_InternalLoadFile_raw" [.int, .int, .int, .int],
   Proto.mk .int "ves_icall_System_Runtime_Loader_AssemblyLoadContext_InternalInitializeNativeALC_raw" [.int, .int, .int, .int, .int],
   Proto.mk .int "ves_icall_System_Runtime_Loader_AssemblyLoadContext_InternalLoadFromStream_raw" [.int, .int, .int, .int, .int, .int],
   Proto.mk .int "ves_icall_System_Runtime_Loader_AssemblyLoadContext_InternalGetLoadedAssemblies_raw" [.int],
   Proto.mk .int "ves_icall_System_GCHandle_InternalAlloc_raw" [.int, .int, .int],
   Proto.mk .void "ves_icall_System_GCHandle_InternalFree_raw" [.int, .int],
   Proto.mk .int "ves_icall_System_GCHandle_InternalGet_raw" [.int, .int],
   Proto.mk .void "ves_icall_System_GCHandle_InternalSet_raw" [.int, .int, .int],
   Proto.mk .int "ves_icall_System_Runtime_InteropServices_Marshal_GetLastPInvokeError" [],
   Proto.mk .void "ves_icall_System_Runtime_InteropServices_Marshal_SetLastPInvokeError" [.int],
   Proto.mk .void "ves_icall_System_Runtime_InteropServices_Marshal_StructureToPtr_raw" [.int, .int, .int, .int],
   Proto.mk .int "ves_icall_System_Runtime_InteropServices_NativeLibrary_LoadByName_raw" [.int, .int, .int, .int, .int, .int],
   Proto.mk .int "ves_icall_System_Runtime_CompilerServices_RuntimeHelpers_InternalGetHashCode_raw" [.int, .int],
   Proto.mk .int "ves_icall_System_Runtime_CompilerServices_RuntimeHelpers_GetObjectValue_raw" [.int, .int],
   Proto.mk .int "ves_icall_System_Runtime_CompilerServices_RuntimeHelpers_GetUninitializedObjectInternal_raw" [.int, .int],
   Proto.mk .void "ves_icall_System_Runtime_CompilerServices_RuntimeHelpers_InitializeArray_raw" [.int, .int, .int],
   Proto.mk .int "ves_icall_System_Runtime_CompilerServices_RuntimeHelpers_GetSpanDataFrom_raw" [.int, .int, .int, .int],
   Proto.mk .int "ves_icall_System_Runtime_CompilerServices_RuntimeHelpers_SufficientExecutionStack" [],
   Proto.mk .int "ves_icall_System_Runtime_CompilerServices_RuntimeHelpers_InternalBox_raw" [.int, .int, .int],
   Proto.mk .int "ves_icall_System_Reflection_Assembly_GetEntryAssembly_raw" [.int],
   Proto.mk .int "ves_icall_System_Reflection_Assembly_InternalLoad_raw" [.int, .int, .int, .int],
   Proto.mk .int "ves_icall_System_Reflection_Assembly_InternalGetType_raw" [.int, .int, .int, .int, .int, .int],
   Proto.mk .int "ves_icall_System_Reflection_AssemblyName_GetNativeName" [.int],
   Proto.mk .int "ves_icall_MonoCustomAttrs_GetCustomAttributesInternal_raw" [.int, .int, .int, .int],
   Proto.mk .int "ves_icall_MonoCustomAttrs_GetCustomAttributesDataInternal_raw" [.int, .int],
   Proto.mk .int "ves_icall_MonoCustomAttrs_IsDefinedInternal_raw" [.int, .int, .int],
   Proto.mk .int "ves_icall_System_Reflection_FieldInfo_internal_from_handle_type_raw" [.int, .int, .int],
   Proto.mk .int "ves_icall_System_Reflection_FieldInfo_get_marshal_info_raw" [.int, .int],
   Proto.mk .int "ves_icall_System_Reflection_LoaderAllocatorScout_Destroy" [.int],
   Proto.mk .void "ves_icall_System_Reflection_RuntimeAssembly_GetManifestResourceNames_raw" [.int, .int, .int],
   Proto.mk .void "ves_icall_System_Reflection_RuntimeAssembly_GetExportedTypes_raw" [.int, .int, .int],
   Proto.mk .void "ves_icall_System_Reflection_RuntimeAssembly_GetInfo_raw" [.int, .int, .int, .int],
   Proto.mk .int "ves_icall_System_Reflection_RuntimeAssembly_GetManifestResourceInternal_raw" [.int, .int, .int, .int, .int],
   Proto.mk .void "ves_icall_System_Reflection_Assembly_GetManifestModuleInternal_raw" [.int, .int, .int],
   Proto.mk .void "ves_icall_System_Reflection_RuntimeCustomAttributeData_ResolveArgumentsInternal_raw" [.int, .int, .int, .int, .int, .int, .int],
   Proto.mk .void "ves_icall_RuntimeEventInfo_get_event_info_raw" [.int, .int, .int],
   Proto.mk .int "ves_icall_reflection_get_token_raw" [.int, .int],
   Proto.mk .int "ves_icall_System_Reflection_EventInfo_internal_from_handle_type_raw" [.int, .int, .int],
   Proto.mk .int "ves_icall_RuntimeFieldInfo_ResolveType_raw" [.int, .int],
   Proto.mk .int "ves_icall_RuntimeFieldInfo_GetParentType_raw" [.int, .int, .int],
   Proto.mk .int "ves_icall_RuntimeFieldInfo_GetFieldOffset_raw" [.int, .int],
   Proto.mk .int "ves_icall_RuntimeFieldInfo_GetValueInternal_raw" [.int, .int, .int],
   Proto.mk .void "ves_icall_RuntimeFieldInfo_SetValueInternal_raw" [.int, .int, .int, .int],
   Proto.mk .int "ves_icall_RuntimeFieldInfo_GetRawConstantValue_raw" [.int, .int],
   Proto.mk .int "ves_icall_reflection_get_token_raw" [.int, .int],
   Proto.mk .void "ves_icall_get_method_info_raw" [.int, .int, .int],
   Proto.mk .int "ves_icall_get_method_attributes" [.int],
   Proto.mk .int "ves_icall_System_Reflection_MonoMethodInfo_get_parameter_info_raw" [.int, .int, .int],
   Proto.mk .int "ves_icall_System_MonoMethodInfo_get_retval_marshal_raw" [.int, .int],
   Proto.mk .int "ves_icall_System_Reflection_RuntimeMethodInfo_GetMethodFromHandleInternalType_native_raw" [.int, .int, .int, .int],
   Proto.mk .int "ves_icall_RuntimeMethodInfo_get_name_raw" [.int, .int],
   Proto.mk .int "ves_icall_RuntimeMethodInfo_get_base_method_raw" [.int, .int, .int],
   Proto.mk .int "ves_icall_reflection_get_token_raw" [.int, .int],
   Proto.mk .int "ves_icall_InternalInvoke_raw" [.int, .int, .int, .int, .int],
   Proto.mk .void "ves_icall_RuntimeMethodInfo_GetPInvoke_raw" [.int, .int, .int, .int, .int],
   Proto.mk .int "ves_icall_RuntimeMethodInfo_MakeGenericMethod_impl_raw" [.int, .int, .int],
   Proto.mk .int "ves_icall_RuntimeMethodInfo_GetGenericArguments_raw" [.int, .int],
   Proto.mk .int "ves_icall_RuntimeMethodInfo_GetGenericMethodDefinition_raw" [.int, .int],
   Proto.mk .int "ves_icall_RuntimeMethodInfo_get_IsGenericMethodDefinition_raw" [.int, .int],
   Proto.mk .int "ves_icall_RuntimeMethodInfo_get_IsGenericMethod_raw" [.int, .int],
   Proto.mk .void "ves_icall_InvokeClassConstructor_raw" [.int, .int],
   Proto.mk .int "ves_icall_InternalInvoke_raw" [.int, .int, .int, .int, .int],
   Proto.mk .int "ves_icall_reflection_get_token_raw" [.int, .int],
   Proto.mk .int "ves_icall_System_Reflection_RuntimeModule_ResolveMethodToken_raw" [.int, .int, .int, .int, .int, .int],
   Proto.mk .void "ves_icall_RuntimePropertyInfo_get_property_info_raw" [.int, .int, .int, .int],
   Proto.mk .int "ves_icall_reflection_get_token_raw" [.int, .int],
   Proto.mk .int "ves_icall_System_Reflection_RuntimePropertyInfo_internal_from_handle_type_raw" [.int, .int, .int],
   Proto.mk .void "ves_icall_DynamicMethod_create_dynamic_method_raw" [.int, .int, .int, .int, .int],
   Proto.mk .void "ves_icall_AssemblyBuilder_basic_init_raw" [.int, .int],
   Proto.mk .void "ves_icall_AssemblyBuilder_UpdateNativeCustomAttributes_raw" [.int, .int],
   Proto.mk .void "ves_icall_ModuleBuilder_basic_init_raw" [.int, .int],
   Proto.mk .void "ves_icall_ModuleBuilder_set_wrappers_type_raw" [.int, .int, .int],
   Proto.mk .int "ves_icall_ModuleBuilder_getUSIndex_raw" [.int, .int, .int],
   Proto.mk .int "ves_icall_ModuleBuilder_getToken_raw" [.int, .int, .int, .int],
   Proto.mk .int "ves_icall_ModuleBuilder_getMethodToken_raw" [.int, .int, .int, .int],
   Proto.mk .void "ves_icall_ModuleBuilder_RegisterToken_raw" [.int, .int, .int, .int],
   Proto.mk .int "ves_icall_TypeBuilder_create_runtime_class_raw" [.int, .int],
   Proto.mk .int "ves_icall_System_IO_Stream_HasOverriddenBeginEndRead_raw" [.int, .int],
   Proto.mk .int "ves_icall_System_IO_Stream_HasOverriddenBeginEndWrite_raw" [.int, .int],
   Proto.mk .int "ves_icall_System_Diagnostics_Debugger_IsAttached_internal" [],
   Proto.mk .int "ves_icall_System_Diagnostics_Debugger_IsLogging" [],
   Proto.mk .void "ves_icall_System_Diagnostics_Debugger_Log" [.int, .int, .int],
   Proto.mk .int "ves_icall_System_Diagnostics_StackFrame_GetFrameInfo" [.int, .int, .int, .int, .int, .int, .int, .int],
   Proto.mk .void "ves_icall_System_Diagnostics_StackTrace_GetTrace" [.int, .int, .int, .int],
   Proto.mk .int "ves_icall_Mono_RuntimeClassHandle_GetTypeFromClass" [.int],
   Proto.mk .void "ves_icall_Mono_RuntimeGPtrArrayHandle_GPtrArrayFree" [.int],
   Proto.mk .int "ves_icall_Mono_SafeStringMarshal_StringToUtf8" [.int],
   Proto.mk .void "ves_icall_Mono_SafeStringMarshal_GFree" [.int]]

/-- The array `static void *corlib_icall_funcs []` (header lines 411-818): each
initialiser is the identifier of a native routine, kept here as its symbol. -/
def corlib_icall_funcs : List String :=
  ["ves_icall_System_Array_InternalCreate",
   "ves_icall_System_Array_GetCorElementTypeOfElementTypeInternal",
   "ves_icall_System_Array_IsValueOfElementTypeInternal",
   "ves_icall_System_Array_CanChangePrimitive",
   "ves_icall_System_Array_FastCopy",
   "ves_icall_System_Array_GetLengthInternal_raw",
   "ves_icall_System_Array_GetLowerBoundInternal_raw",
   "ves_icall_System_Array_GetGenericValue_icall",
   "ves_icall_System_Array_GetValueImpl_raw",
   "ves_icall_System_Array_SetGenericValue_icall",
   "ves_icall_System_Array_SetValueImpl_raw",
   "ves_icall_System_Array_SetValueRelaxedImpl_raw",
   "ves_icall_System_Runtime_RuntimeImports_ZeroMemory",
   "ves_icall_System_Runtime_RuntimeImports_Memmove",
   "ves_icall_System_Buffer_BulkMoveWithWriteBarrier",
   "ves_icall_System_Delegate_AllocDelegateLike_internal_raw",
   "ves_icall_System_Delegate_CreateDelegate_internal_raw",
   "ves_icall_System_Delegate_GetVirtualMethod_internal_raw",
   "ves_icall_System_Enum_GetEnumValuesAndNames_raw",
   "ves_icall_System_Enum_InternalGetCorElementType",
   "ves_icall_System_Enum_InternalGetUnderlyingType_raw",
   "ves_icall_System_Environment_get_ProcessorCount",
   "ves_icall_System_Environment_get_TickCount",
   "ves_icall_System_Environment_get_TickCount64",
   "ves_icall_System_Environment_FailFast_raw",
   "ves_icall_System_GC_register_ephemeron_array_raw",
   "ves_icall_System_GC_get_ephemeron_tombstone_raw",
   "ves_icall_System_GC_SuppressFinalize_raw",
   "ves_icall_System_GC_ReRegisterForFinalize_raw",
   "ves_icall_System_GC_GetGCMemoryInfo",
   "ves_icall_System_GC_AllocPinnedArray_raw",
   "ves_icall_System_Object_MemberwiseClone_raw",
   "ves_icall_System_Math_Ceiling",
   "ves_icall_System_Math_Cos",
   "ves_icall_System_Math_Floor",
   "ves_icall_System_Math_Log",
   "ves_icall_System_Math_Pow",
   "ves_icall_System_Math_Sin",
   "ves_icall_System_Math_Sqrt",
   "ves_icall_System_Math_Tan",
   "ves_icall_System_Math_ModF",
   "ves_icall_RuntimeMethodHandle_GetFunctionPointer_raw",
   "ves_icall_RuntimeMethodHandle_ReboxFromNullable_raw",
   "ves_icall_RuntimeMethodHandle_ReboxToNullable_raw",
   "ves_icall_RuntimeType_GetCorrespondingInflatedMethod_raw",
   "ves_icall_RuntimeType_make_array_type_raw",
   "ves_icall_RuntimeType_make_byref_type_raw",
   "ves_icall_RuntimeType_make_pointer_type_raw",
   "ves_icall_RuntimeType_MakeGenericType_raw",
   "ves_icall_RuntimeType_GetMethodsByName_native_raw",
   "ves_icall_RuntimeType_GetPropertiesByName_native_raw",
   "ves_icall_RuntimeType_GetConstructors_native_raw",
   "ves_icall_System_RuntimeType_CreateInstanceInternal_raw",
   "ves_icall_RuntimeType_GetDeclaringMethod_raw",
   "ves_icall_System_RuntimeType_getFullName_raw",
   "ves_icall_RuntimeType_GetGenericArgumentsInternal_raw",
   "ves_icall_RuntimeType_GetGenericParameterPosition",
   "ves_icall_RuntimeType_GetEvents_native_raw",
   "ves_icall_RuntimeType_GetFields_native_raw",
   "ves_icall_RuntimeType_GetInterfaces_raw",
   "ves_icall_RuntimeType_GetNestedTypes_native_raw",
   "ves_icall_RuntimeType_GetDeclaringType_raw",
   "ves_icall_RuntimeType_GetName_raw",
   "ves_icall_RuntimeType_GetNamespace_raw",
   "ves_icall_RuntimeType_FunctionPointerReturnAndParameterTypes_raw",
   "ves_icall_RuntimeTypeHandle_GetAttributes",
   "ves_icall_RuntimeTypeHandle_GetMetadataToken_raw",
   "ves_icall_RuntimeTypeHandle_GetGenericTypeDefinition_impl_raw",
   "ves_icall_RuntimeTypeHandle_GetCorElementType",
   "ves_icall_RuntimeTypeHandle_HasInstantiation",
   "ves_icall_RuntimeTypeHandle_IsInstanceOfType_raw",
   "ves_icall_RuntimeTypeHandle_HasReferences_raw",
   "ves_icall_RuntimeTypeHandle_GetArrayRank_raw",
   "ves_icall_RuntimeTypeHandle_GetAssembly_raw",
   "ves_icall_RuntimeTypeHandle_GetElementType_raw",
   "ves_icall_RuntimeTypeHandle_GetModule_raw",
   "ves_icall_RuntimeTypeHandle_GetBaseType_raw",
   "ves_icall_RuntimeTypeHandle_type_is_assignable_from_raw",
   "ves_icall_RuntimeTypeHandle_IsGenericTypeDefinition",
   "ves_icall_RuntimeTypeHandle_GetGenericParameterInfo_raw",
   "ves_icall_RuntimeTypeHandle_is_subclass_of_raw",
   "ves_icall_RuntimeTypeHandle_IsByRefLike_raw",
   "ves_icall_System_RuntimeTypeHandle_internal_from_name_raw",
   "ves_icall_System_String_FastAllocateString_raw",
   "ves_icall_System_Type_internal_from_handle_raw",
   "ves_icall_System_ValueType_InternalGetHashCode_raw",
   "ves_icall_System_ValueType_Equals_raw",
   "ves_icall_System_Threading_Interlocked_CompareExchange_Int",
   "ves_icall_System_Threading_Interlocked_CompareExchange_Object",
   "ves_icall_System_Threading_Interlocked_Decrement_Int",
   "ves_icall_System_Threading_Interlocked_Increment_Int",
   "ves_icall_System_Threading_Interlocked_Increment_Long",
   "ves_icall_System_Threading_Interlocked_Exchange_Int",
   "ves_icall_System_Threading_Interlocked_Exchange_Object",
   "ves_icall_System_Threading_Interlocked_CompareExchange_Long",
   "ves_icall_System_Threading_Interlocked_Exchange_Long",
   "ves_icall_System_Threading_Interlocked_Add_Int",
   "ves_icall_System_Threading_Interlocked_Add_Long",
   "ves_icall_System_Threading_Monitor_Monitor_Enter_raw",
   "mono_monitor_exit_icall_raw",
   "ves_icall_System_Threading_Monitor_Monitor_pulse_raw",
   "ves_icall_System_Threading_Monitor_Monitor_pulse_all_raw",
   "ves_icall_System_Threading_Monitor_Monitor_wait_raw",
   "ves_icall_System_Threading_Monitor_Monitor_try_enter_with_atomic_var_raw",
   "ves_icall_System_Threading_Thread_InitInternal_raw",
   "ves_icall_System_Threading_Thread_GetCurrentThread",
   "ves_icall_System_Threading_InternalThread_Thread_free_internal_raw",
   "ves_icall_System_Threading_Thread_GetState_raw",
   "ves_icall_System_Threading_Thread_SetState_raw",
   "ves_icall_System_Threading_Thread_ClrState_raw",
   "ves_icall_System_Threading_Thread_SetName_icall_raw",
   "ves_icall_System_Threading_Thread_YieldInternal",
   "ves_icall_System_Threading_Thread_SetPriority_raw",
   "ves_icall_System_Runtime_Loader_AssemblyLoadContext_PrepareForAssemblyLoadContextRelease_raw",
   "ves_icall_System_Runtime_Loader_AssemblyLoadContext_GetLoadContextForAssembly_raw",
   "ves_icall_System_Runtime_Loader_AssemblyLoadContext_InternalLoadFile_raw",
   "ves_icall_System_Runtime_Loader_AssemblyLoadContext_InternalInitializeNativeALC_raw",
   "ves_icall_System_Runtime_Loader_AssemblyLoadContext_InternalLoadFromStream_raw",
   "ves_icall_System_Runtime_Loader_AssemblyLoadContext_InternalGetLoadedAssemblies_raw",
   "ves_icall_System_GCHandle_InternalAlloc_raw",
   "ves_icall_System_GCHandle_InternalFree_raw",
   "ves_icall_System_GCHandle_InternalGet_raw",
   "ves_icall_System_GCHandle_InternalSet_raw",
   "ves_icall_System_Runtime_InteropServices_Marshal_GetLastPInvokeError",
   "ves_icall_System_Runtime_InteropServices_Marshal_SetLastPInvokeError",
   "ves_icall_System_Runtime_InteropServices_Marshal_StructureToPtr_raw",
   "ves_icall_System_Runtime_InteropServices_NativeLibrary_LoadByName_raw",
   "ves_icall_System_Runtime_CompilerServices_RuntimeHelpers_InternalGetHashCode_raw",
   "ves_icall_System_Runtime_CompilerServices_RuntimeHelpers_GetObjectValue_raw",
   "ves_icall_System_Runtime_CompilerServices_RuntimeHelpers_GetUninitializedObjectInternal_raw",
   "ves_icall_System_Runtime_CompilerServices_RuntimeHelpers_InitializeArray_raw",
   "ves_icall_System_Runtime_CompilerServices_RuntimeHelpers_GetSpanDataFrom_raw",
   "ves_icall_System_Runtime_CompilerServices_RuntimeHelpers_SufficientExecutionStack",
   "ves_icall_System_Runtime_CompilerServices_RuntimeHelpers_InternalBox_raw",
   "ves_icall_System_Reflection_Assembly_GetEntryAssembly_raw",
   "ves_icall_System_Reflection_Assembly_InternalLoad_raw",
   "ves_icall_System_Reflection_Assembly_InternalGetType_raw",
   "ves_icall_System_Reflection_AssemblyName_GetNativeName",
   "ves_icall_MonoCustomAttrs_GetCustomAttributesInternal_raw",
   "ves_icall_MonoCustomAttrs_GetCustomAttributesDataInternal_raw",
   "ves_icall_MonoCustomAttrs_IsDefinedInternal_raw",
   "ves_icall_System_Reflection_FieldInfo_internal_from_handle_type_raw",
   "ves_icall_System_Reflection_FieldInfo_get_marshal_info_raw",
   "ves_icall_System_Reflection_LoaderAllocatorScout_Destroy",
   "ves_icall_System_Reflection_RuntimeAssembly_GetManifestResourceNames_raw",
   "ves_icall_System_Reflection_RuntimeAssembly_GetExportedTypes_raw",
   "ves_icall_System_Reflection_RuntimeAssembly_GetInfo_raw",
   "ves_icall_System_Reflection_RuntimeAssembly_GetManifestResourceInternal_raw",
   "ves_icall_System_Reflection_Assembly_GetManifestModuleInternal_raw",
   "ves_icall_System_Reflection_RuntimeCustomAttributeData_ResolveArgumentsInternal_raw",
   "ves_icall_RuntimeEventInfo_get_event_info_raw",
   "ves_icall_reflection_get_token_raw",
   "ves_icall_System_Reflection_EventInfo_internal_from_handle_type_raw",
   "ves_icall_RuntimeFieldInfo_ResolveType_raw",
   "ves_icall_RuntimeFieldInfo_GetParentType_raw",
   "ves_icall_RuntimeFieldInfo_GetFieldOffset_raw",
   "ves_icall_RuntimeFieldInfo_GetValueInternal_raw",
   "ves_icall_RuntimeFieldInfo_SetValueInternal_raw",
   "ves_icall_RuntimeFieldInfo_GetRawConstantValue_raw",
   "ves_icall_reflection_get_token_raw",
   "ves_icall_get_method_info_raw",
   "ves_icall_get_method_attributes",
   "ves_icall_System_Reflection_MonoMethodInfo_get_parameter_info_raw",
   "ves_icall_System_MonoMethodInfo_get_retval_marshal_raw",
   "ves_icall_System_Reflection_RuntimeMethodInfo_GetMethodFromHandleInternalType_native_raw",
   "ves_icall_RuntimeMethodInfo_get_name_raw",
   "ves_icall_RuntimeMethodInfo_get_base_method_raw",
   "ves_icall_reflection_get_token_raw",
   "ves_icall_InternalInvoke_raw",
   "ves_icall_RuntimeMethodInfo_GetPInvoke_raw",
   "ves_icall_RuntimeMethodInfo_MakeGenericMethod_impl_raw",
   "ves_icall_RuntimeMethodInfo_GetGenericArguments_raw",
   "ves_icall_RuntimeMethodInfo_GetGenericMethodDefinition_raw",
   "ves_icall_RuntimeMethodInfo_get_IsGenericMethodDefinition_raw",
   "ves_icall_RuntimeMethodInfo_get_IsGenericMethod_raw",
   "ves_icall_InvokeClassConstructor_raw",
   "ves_icall_InternalInvoke_raw",
   "ves_icall_reflection_get_token_raw",
   "ves_icall_System_Reflection_RuntimeModule_ResolveMethodToken_raw",
   "ves_icall_RuntimePropertyInfo_get_property_info_raw",
   "ves_icall_reflection_get_token_raw",
   "ves_icall_System_Reflection_RuntimePropertyInfo_internal_from_handle_type_raw",
   "ves_icall_DynamicMethod_create_dynamic_method_raw",
   "ves_icall_AssemblyBuilder_basic_init_raw",
   "ves_icall_AssemblyBuilder_UpdateNativeCustomAttributes_raw",
   "ves_icall_ModuleBuilder_basic_init_raw",
   "ves_icall_ModuleBuilder_set_wrappers_type_raw",
   "ves_icall_ModuleBuilder_getUSIndex_raw",
   "ves_icall_ModuleBuilder_getToken_raw",
   "ves_icall_ModuleBuilder_getMethodToken_raw",
   "ves_icall_ModuleBuilder_RegisterToken_raw",
   "ves_icall_TypeBuilder_create_runtime_class_raw",
   "ves_icall_System_IO_Stream_HasOverriddenBeginEndRead_raw",
   "ves_icall_System_IO_Stream_HasOverriddenBeginEndWrite_raw",
   "ves_icall_System_Diagnostics_Debugger_IsAttached_internal",
   "ves_icall_System_Diagnostics_Debugger_IsLogging",
   "ves_icall_System_Diagnostics_Debugger_Log",
   "ves_icall_System_Diagnostics_StackFrame_GetFrameInfo",
   "ves_icall_System_Diagnostics_StackTrace_GetTrace",
   "ves_icall_Mono_RuntimeClassHandle_GetTypeFromClass",
   "ves_icall_Mono_RuntimeGPtrArrayHandle_GPtrArrayFree",
   "ves_icall_Mono_SafeStringMarshal_StringToUtf8",
   "ves_icall_Mono_SafeStringMarshal_GFree"]

/-- The array `static uint8_t corlib_icall_flags []` (header lines 819-1023): one
flag byte per entry. -/
def corlib_icall_flags : List Nat :=
  [0, 0, 0, 0, 0, 4, 4, 0, 4, 0, 4, 4, 0, 0, 0, 4, 4, 4, 4, 0, 4, 0, 0, 0, 4, 4, 4, 4, 4,
   0, 4, 4, 0, 0, 0, 0, 0, 0, 0, 0, 0, 4, 4, 4, 4, 4, 4, 4, 4, 4, 4, 4, 4, 4, 4, 4, 0, 4,
   4, 4, 4, 4, 4, 4, 4, 0, 4, 4, 0, 0, 4, 4, 4, 4, 4, 4, 4, 4, 0, 4, 4, 4, 4, 4, 4, 4, 4,
   0, 0, 0, 0, 0, 0, 0, 0, 0, 0, 0, 4, 4, 4, 4, 4, 4, 4, 0, 4, 4, 4, 4, 4, 0, 4, 4, 4, 4,
   4, 4, 4, 4, 4, 4, 4, 0, 0, 4, 4, 4, 4, 4, 4, 4, 0, 4, 4, 4, 4, 0, 4, 4, 4, 4, 4, 0, 4,
   4, 4, 4, 4, 4, 4, 4, 4, 4, 4, 4, 4, 4, 4, 4, 4, 0, 4, 4, 4, 4, 4, 4, 4, 4, 4, 4, 4, 4,
   4, 4, 4, 4, 4, 4, 4, 4, 4, 4, 4, 4, 4, 4, 4, 4, 4, 4, 4, 4, 0, 0, 0, 0, 0, 0, 0, 0, 0]

/-- A top-level item of the header, in the order the file lists them. -/
inductive Decl where
  | define (name : String) (value : Nat)
  | int_array (name : String) (elems : List Int)
  | prototype (p : Proto)
  | ptr_array (name : String) (elems : List String)
  | byte_array (name : String) (elems : List Nat)
  deriving DecidableEq, Repr

/-- The whole header `icall-table.h`, item by item in file order: the
`#define`, the token table, the prototypes, the pointer table, the flag table. -/
def icall_table_h : List Decl :=
  [Decl.define "ICALL_TABLE_corlib" 1,
   Decl.int_array "corlib_icall_indexes" corlib_icall_indexes]
  ++ corlib_icall_prototypes.map Decl.prototype
  ++ [Decl.ptr_array "corlib_icall_funcs" corlib_icall_funcs,
      Decl.byte_array "corlib_icall_flags" corlib_icall_flags]

/-- Flag byte of the Wrapped calling convention. -/
def FLAG_WRAPPED : Nat := 0

/-- Flag byte of the Raw calling convention. -/
def FLAG_RAW : Nat := 4

/-- The value of a C `int` read as an unsigned 32-bit integer (reduction
modulo `2^32`). -/
def as_uint32 (x : Int) : Nat := (x % 2 ^ 32).toNat

/-- Checker: every element of a token list is strictly below its successor. -/
def ascendingB : List Int → Bool
  | [] => true
  | [_] => true
  | a :: b :: rest => decide (a < b) && ascendingB (b :: rest)

/-- Checker: a relation holds between every element and every later one. -/
def pairwiseB {α : Type} (r : α → α → Bool) : List α → Bool
  | [] => true
  | a :: rest => rest.all (r a) && pairwiseB r rest

/-- A parameter type is a primitive scalar: `int`, `int64_t` or `double`. -/
def CType.scalar : CType → Bool
  | .int => true
  | .int64_t => true
  | .double => true
  | .void => false

/-- A prototype mentions primitive scalar types only: every parameter is
`int`, `int64_t` or `double`, and the return type is one of these or `void`. -/
def Proto.scalar_only (p : Proto) : Bool :=
  (p.ret.scalar || decide (p.ret = CType.void)) && p.params.all CType.scalar

/-- An entry of the dispatch table: token, native entry point, flag byte. -/
structure Entry where
  token : Int
  native_entry : String
  flags : Nat
  deriving DecidableEq, Repr

/-- The three parallel tables of the header, taken together. -/
structure EntryStore where
  indexes : List Int
  funcs : List String
  flags : List Nat
  deriving DecidableEq, Repr

/-- Number of entries of a store, read from the token table. -/
def EntryStore.count (s : EntryStore) : Nat := s.indexes.length

/-- Positional read access: the entry made of the `i`-th element of each table. -/
def EntryStore.entry (s : EntryStore) (i : Nat) : Entry :=
  ⟨s.indexes.getD i 0, s.funcs.getD i "", s.flags.getD i 0⟩

/-- The shipped corlib table: the three arrays of the header. -/
def corlib : EntryStore :=
  ⟨corlib_icall_indexes, corlib_icall_funcs, corlib_icall_flags⟩

/-- Result of a lookup: a hit, an explicit miss, or the step budget ran out
before the search finished. -/
inductive Outcome (α : Type) where
  | found (a : α)
  | notFound
  | outOfSteps
  deriving DecidableEq, Repr

/-- Modelled from the spec: the binary search of the Resolver (section 4.2),
which the header does not contain.  It searches the window `[lo, hi)` of the
ascending token sequence, probing the middle element and halving the window;
`steps` bounds the number of probes. -/
def bsearch (tokens : List Int) (t : Int) : Nat → Nat → Nat → Outcome Nat
  | 0, _, _ => Outcome.outOfSteps
  | steps + 1, lo, hi =>
    if lo < hi then
      let mid := lo + (hi - lo) / 2
      let v := tokens.getD mid 0
      if v = t then Outcome.found mid
      else if v < t then bsearch tokens t steps (mid + 1) hi
      else bsearch tokens t steps lo mid
    else Outcome.notFound

/-- Modelled from the spec: the position of token `t` by binary search over the
whole token sequence, with a step budget of one more than its length. -/
def resolve_index (tokens : List Int) (t : Int) : Outcome Nat :=
  bsearch tokens t (tokens.length + 1) 0 tokens.length

/-- Modelled from the spec: `resolve(token) -> Entry | NotFound` (section 4.2),
the entry at the position binary search finds. -/
def resolve (s : EntryStore) (t : Int) : Outcome Entry :=
  match resolve_index s.indexes t with
  | Outcome.found i => Outcome.found (s.entry i)
  | Outcome.notFound => Outcome.notFound
  | Outcome.outOfSteps => Outcome.outOfSteps

/-- Reference lookup in the words of the spec (section 8): a linear
left-to-right scan of the token sequence, `i` being the position of the head. -/
def linear_scan_from (t : Int) : List Int → Nat → Outcome Nat
  | [], _ => Outcome.notFound
  | x :: rest, i => if x = t then Outcome.found i else linear_scan_from t rest (i + 1)

/-- Reference lookup: linear scan of the whole token sequence. -/
def linear_scan (tokens : List Int) (t : Int) : Outcome Nat :=
  linear_scan_from t tokens 0

/-- The three-entry table of the concrete scenario of the spec (section 8):
`[(100, fnA, Wrapped), (200, fnB, Raw), (305, fnC, Wrapped)]`. -/
def scenario_table : EntryStore :=
  ⟨[100, 200, 305], ["fnA", "fnB", "fnC"], [FLAG_WRAPPED, FLAG_RAW, FLAG_WRAPPED]⟩

/-- A construction input `(token, native_entry, flags)`; a null native entry
is `none`. -/
structure Tuple where
  token : Int
  native_entry : Option String
  flags : Nat
  deriving DecidableEq, Repr

/-- Why construction of the entry store failed. -/
inductive BuildError where
  | unsorted
  | null_entry
  | bad_flag
  deriving DecidableEq, Repr

/-- Modelled from the spec: construction of the Entry Store (section 4.1), which
the header does not contain.  The tuples are taken in order; `prev` is the
token of the preceding tuple.  A token not above its predecessor, a null
native entry or a flag other than Wrapped and Raw fails the construction. -/
def construct_from : Option Int → List Tuple → Except BuildError EntryStore
  | _, [] => Except.ok ⟨[], [], []⟩
  | prev, x :: rest =>
    if prev.any (fun p => decide (x.token ≤ p)) then Except.error BuildError.unsorted
    else match x.native_entry with
      | none => Except.error BuildError.null_entry
      | some f =>
        if x.flags ≠ FLAG_WRAPPED ∧ x.flags ≠ FLAG_RAW then Except.error BuildError.bad_flag
        else match construct_from (some x.token) rest with
          | Except.ok s => Except.ok ⟨x.token :: s.indexes, f :: s.funcs, x.flags :: s.flags⟩
          | Except.error e => Except.error e

/-- Modelled from the spec: construction of the Entry Store from the list of
tuples supplied at startup. -/
def construct (l : List Tuple) : Except BuildError EntryStore :=
  construct_from none l

/-- Tuples made of the elements at equal positions of three tables. -/
def zip_tables : List Int → List String → List Nat → List Tuple
  | t :: ts, f :: fs, b :: bs => ⟨t, some f, b⟩ :: zip_tables ts fs bs
  | _, _, _ => []

/-- The construction input the header supplies: position by position, the
token, the address of the named routine (never null) and the flag byte. -/
def corlib_tuples : List Tuple :=
  zip_tables corlib_icall_indexes corlib_icall_funcs corlib_icall_flags

/-- A numeric key of a symbol: its characters read as digits in base 256.
Equal symbols have equal keys. -/
def sym_key (s : String) : Nat :=
  s.data.foldl (fun a c => a * 256 + c.toNat) 0

/-- Checker: two entries of the pointer table name the same routine only when
that routine is one of the `allowed` ones.  `a` and `b` pair a symbol with its
key; symbols are compared only when the keys agree. -/
def shared_only (allowed : List String) (a b : Nat × String) : Bool :=
  a.1 != b.1 || allowed.contains a.2


/-- The pointer table with its comments (header lines 411-818): each
`// token N` comment paired with the initialiser written on the line right
after it, in file order. -/
def corlib_icall_funcs_annotated : List (Int × String) :=
  [Prod.mk 216 "ves_icall_System_Array_InternalCreate",
   Prod.mk 227 "ves_icall_System_Array_GetCorElementTypeOfElementTypeInternal",
   Prod.mk 228 "ves_icall_System_Array_IsValueOfElementTypeInternal",
   Prod.mk 229 "ves_icall_System_Array_CanChangePrimitive",
   Prod.mk 230 "ves_icall_System_Array_FastCopy",
   Prod.mk 231 "ves_icall_System_Array_GetLengthInternal_raw",
   Prod.mk 232 "ves_icall_System_Array_GetLowerBoundInternal_raw",
   Prod.mk 233 "ves_icall_System_Array_GetGenericValue_icall",
   Prod.mk 234 "ves_icall_System_Array_GetValueImpl_raw",
   Prod.mk 235 "ves_icall_System_Array_SetGenericValue_icall",
   Prod.mk 238 "ves_icall_System_Array_SetValueImpl_raw",
   Prod.mk 239 "ves_icall_System_Array_SetValueRelaxedImpl_raw",
   Prod.mk 357 "ves_icall_System_Runtime_RuntimeImports_ZeroMemory",
   Prod.mk 358 "ves_icall_System_Runtime_RuntimeImports_Memmove",
   Prod.mk 359 "ves_icall_System_Buffer_BulkMoveWithWriteBarrier",
   Prod.mk 387 "ves_icall_System_Delegate_AllocDelegateLike_internal_raw",
   Prod.mk 388 "ves_icall_System_Delegate_CreateDelegate_internal_raw",
   Prod.mk 389 "ves_icall_System_Delegate_GetVirtualMethod_internal_raw",
   Prod.mk 416 "ves_icall_System_Enum_GetEnumValuesAndNames_raw",
   Prod.mk 417 "ves_icall_System_Enum_InternalGetCorElementType",
   Prod.mk 418 "ves_icall_System_Enum_InternalGetUnderlyingType_raw",
   Prod.mk 510 "ves_icall_System_Environment_get_ProcessorCount",
   Prod.mk 511 "ves_icall_System_Environment_get_TickCount",
   Prod.mk 512 "ves_icall_System_Environment_get_TickCount64",
   Prod.mk 515 "ves_icall_System_Environment_FailFast_raw",
   Prod.mk 554 "ves_icall_System_GC_register_ephemeron_array_raw",
   Prod.mk 555 "ves_icall_System_GC_get_ephemeron_tombstone_raw",
   Prod.mk 557 "ves_icall_System_GC_SuppressFinalize_raw",
   Prod.mk 559 "ves_icall_System_GC_ReRegisterForFinalize_raw",
   Prod.mk 561 "ves_icall_System_GC_GetGCMemoryInfo",
   Prod.mk 563 "ves_icall_System_GC_AllocPinnedArray_raw",
   Prod.mk 568 "ves_icall_System_Object_MemberwiseClone_raw",
   Prod.mk 576 "ves_icall_System_Math_Ceiling",
   Prod.mk 577 "ves_icall_System_Math_Cos",
   Prod.mk 578 "ves_icall_System_Math_Floor",
   Prod.mk 579 "ves_icall_System_Math_Log",
   Prod.mk 580 "ves_icall_System_Math_Pow",
   Prod.mk 581 "ves_icall_System_Math_Sin",
   Prod.mk 582 "ves_icall_System_Math_Sqrt",
   Prod.mk 583 "ves_icall_System_Math_Tan",
   Prod.mk 584 "ves_icall_System_Math_ModF",
   Prod.mk 673 "ves_icall_RuntimeMethodHandle_GetFunctionPointer_raw",
   Prod.mk 682 "ves_icall_RuntimeMethodHandle_ReboxFromNullable_raw",
   Prod.mk 683 "ves_icall_RuntimeMethodHandle_ReboxToNullable_raw",
   Prod.mk 752 "ves_icall_RuntimeType_GetCorrespondingInflatedMethod_raw",
   Prod.mk 759 "ves_icall_RuntimeType_make_array_type_raw",
   Prod.mk 762 "ves_icall_RuntimeType_make_byref_type_raw",
   Prod.mk 764 "ves_icall_RuntimeType_make_pointer_type_raw",
   Prod.mk 769 "ves_icall_RuntimeType_MakeGenericType_raw",
   Prod.mk 770 "ves_icall_RuntimeType_GetMethodsByName_native_raw",
   Prod.mk 772 "ves_icall_RuntimeType_GetPropertiesByName_native_raw",
   Prod.mk 773 "ves_icall_RuntimeType_GetConstructors_native_raw",
   Prod.mk 777 "ves_icall_System_RuntimeType_CreateInstanceInternal_raw",
   Prod.mk 778 "ves_icall_RuntimeType_GetDeclaringMethod_raw",
   Prod.mk 780 "ves_icall_System_RuntimeType_getFullName_raw",
   Prod.mk 781 "ves_icall_RuntimeType_GetGenericArgumentsInternal_raw",
   Prod.mk 784 "ves_icall_RuntimeType_GetGenericParameterPosition",
   Prod.mk 785 "ves_icall_RuntimeType_GetEvents_native_raw",
   Prod.mk 786 "ves_icall_RuntimeType_GetFields_native_raw",
   Prod.mk 789 "ves_icall_RuntimeType_GetInterfaces_raw",
   Prod.mk 791 "ves_icall_RuntimeType_GetNestedTypes_native_raw",
   Prod.mk 794 "ves_icall_RuntimeType_GetDeclaringType_raw",
   Prod.mk 796 "ves_icall_RuntimeType_GetName_raw",
   Prod.mk 798 "ves_icall_RuntimeType_GetNamespace_raw",
   Prod.mk 807 "ves_icall_RuntimeType_FunctionPointerReturnAndParameterTypes_raw",
   Prod.mk 873 "ves_icall_RuntimeTypeHandle_GetAttributes",
   Prod.mk 875 "ves_icall_RuntimeTypeHandle_GetMetadataToken_raw",
   Prod.mk 877 "ves_icall_RuntimeTypeHandle_GetGenericTypeDefinition_impl_raw",
   Prod.mk 887 "ves_icall_RuntimeTypeHandle_GetCorElementType",
   Prod.mk 888 "ves_icall_RuntimeTypeHandle_HasInstantiation",
   Prod.mk 889 "ves_icall_RuntimeTypeHandle_IsInstanceOfType_raw",
   Prod.mk 891 "ves_icall_RuntimeTypeHandle_HasReferences_raw",
   Prod.mk 897 "ves_icall_RuntimeTypeHandle_GetArrayRank_raw",
   Prod.mk 898 "ves_icall_RuntimeTypeHandle_GetAssembly_raw",
   Prod.mk 899 "ves_icall_RuntimeTypeHandle_GetElementType_raw",
   Prod.mk 900 "ves_icall_RuntimeTypeHandle_GetModule_raw",
   Prod.mk 901 "ves_icall_RuntimeTypeHandle_GetBaseType_raw",
   Prod.mk 909 "ves_icall_RuntimeTypeHandle_type_is_assignable_from_raw",
   Prod.mk 910 "ves_icall_RuntimeTypeHandle_IsGenericTypeDefinition",
   Prod.mk 911 "ves_icall_RuntimeTypeHandle_GetGenericParameterInfo_raw",
   Prod.mk 915 "ves_icall_RuntimeTypeHandle_is_subclass_of_raw",
   Prod.mk 916 "ves_icall_RuntimeTypeHandle_IsByRefLike_raw",
   Prod.mk 918 "ves_icall_System_RuntimeTypeHandle_internal_from_name_raw",
   Prod.mk 920 "ves_icall_System_String_FastAllocateString_raw",
   Prod.mk 1135 "ves_icall_System_Type_internal_from_handle_raw",
   Prod.mk 1313 "ves_icall_System_ValueType_InternalGetHashCode_raw",
   Prod.mk 1314 "ves_icall_System_ValueType_Equals_raw",
   Prod.mk 7535 "ves_icall_System_Threading_Interlocked_CompareExchange_Int",
   Prod.mk 7536 "ves_icall_System_Threading_Interlocked_CompareExchange_Object",
   Prod.mk 7538 "ves_icall_System_Threading_Interlocked_Decrement_Int",
   Prod.mk 7539 "ves_icall_System_Threading_Interlocked_Increment_Int",
   Prod.mk 7540 "ves_icall_System_Threading_Interlocked_Increment_Long",
   Prod.mk 7541 "ves_icall_System_Threading_Interlocked_Exchange_Int",
   Prod.mk 7542 "ves_icall_System_Threading_Interlocked_Exchange_Object",
   Prod.mk 7544 "ves_icall_System_Threading_Interlocked_CompareExchange_Long",
   Prod.mk 7545 "ves_icall_System_Threading_Interlocked_Exchange_Long",
   Prod.mk 7546 "ves_icall_System_Threading_Interlocked_Add_Int",
   Prod.mk 7547 "ves_icall_System_Threading_Interlocked_Add_Long",
   Prod.mk 7564 "ves_icall_System_Threading_Monitor_Monitor_Enter_raw",
   Prod.mk 7566 "mono_monitor_exit_icall_raw",
   Prod.mk 7571 "ves_icall_System_Threading_Monitor_Monitor_pulse_raw",
   Prod.mk 7573 "ves_icall_System_Threading_Monitor_Monitor_pulse_all_raw",
   Prod.mk 7575 "ves_icall_System_Threading_Monitor_Monitor_wait_raw",
   Prod.mk 7577 "ves_icall_System_Threading_Monitor_Monitor_try_enter_with_atomic_var_raw",
   Prod.mk 7628 "ves_icall_System_Threading_Thread_InitInternal_raw",
   Prod.mk 7629 "ves_icall_System_Threading_Thread_GetCurrentThread",
   Prod.mk 7631 "ves_icall_System_Threading_InternalThread_Thread_free_internal_raw",
   Prod.mk 7632 "ves_icall_System_Threading_Thread_GetState_raw",
   Prod.mk 7633 "ves_icall_System_Threading_Thread_SetState_raw",
   Prod.mk 7634 "ves_icall_System_Threading_Thread_ClrState_raw",
   Prod.mk 7635 "ves_icall_System_Threading_Thread_SetName_icall_raw",
   Prod.mk 7637 "ves_icall_System_Threading_Thread_YieldInternal",
   Prod.mk 7639 "ves_icall_System_Threading_Thread_SetPriority_raw",
   Prod.mk 8686 "ves_icall_System_Runtime_Loader_AssemblyLoadContext_PrepareForAssemblyLoadContextRelease_raw",
   Prod.mk 8690 "ves_icall_System_Runtime_Loader_AssemblyLoadContext_GetLoadContextForAssembly_raw",
   Prod.mk 8692 "ves_icall_System_Runtime_Loader_AssemblyLoadContext_InternalLoadFile_raw",
   Prod.mk 8693 "ves_icall_System_Runtime_Loader_AssemblyLoadContext_InternalInitializeNativeALC_raw",
   Prod.mk 8694 "ves_icall_System_Runtime_Loader_AssemblyLoadContext_InternalLoadFromStream_raw",
   Prod.mk 8695 "ves_icall_System_Runtime_Loader_AssemblyLoadContext_InternalGetLoadedAssemblies_raw",
   Prod.mk 9113 "ves_icall_System_GCHandle_InternalAlloc_raw",
   Prod.mk 9114 "ves_icall_System_GCHandle_InternalFree_raw",
   Prod.mk 9115 "ves_icall_System_GCHandle_InternalGet_raw",
   Prod.mk 9116 "ves_icall_System_GCHandle_InternalSet_raw",
   Prod.mk 9134 "ves_icall_System_Runtime_InteropServices_Marshal_GetLastPInvokeError",
   Prod.mk 9135 "ves_icall_System_Runtime_InteropServices_Marshal_SetLastPInvokeError",
   Prod.mk 9136 "ves_icall_System_Runtime_InteropServices_Marshal_StructureToPtr_raw",
   Prod.mk 9181 "ves_icall_System_Runtime_InteropServices_NativeLibrary_LoadByName_raw",
   Prod.mk 9262 "ves_icall_System_Runtime_CompilerServices_RuntimeHelpers_InternalGetHashCode_raw",
   Prod.mk 9265 "ves_icall_System_Runtime_CompilerServices_RuntimeHelpers_GetObjectValue_raw",
   Prod.mk 9273 "ves_icall_System_Runtime_CompilerServices_RuntimeHelpers_GetUninitializedObjectInternal_raw",
   Prod.mk 9274 "ves_icall_System_Runtime_CompilerServices_RuntimeHelpers_InitializeArray_raw",
   Prod.mk 9275 "ves_icall_System_Runtime_CompilerServices_RuntimeHelpers_GetSpanDataFrom_raw",
   Prod.mk 9276 "ves_icall_System_Runtime_CompilerServices_RuntimeHelpers_SufficientExecutionStack",
   Prod.mk 9277 "ves_icall_System_Runtime_CompilerServices_RuntimeHelpers_InternalBox_raw",
   Prod.mk 9622 "ves_icall_System_Reflection_Assembly_GetEntryAssembly_raw",
   Prod.mk 9626 "ves_icall_System_Reflection_Assembly_InternalLoad_raw",
   Prod.mk 9627 "ves_icall_System_Reflection_Assembly_InternalGetType_raw",
   Prod.mk 9656 "ves_icall_System_Reflection_AssemblyName_GetNativeName",
   Prod.mk 9691 "ves_icall_MonoCustomAttrs_GetCustomAttributesInternal_raw",
   Prod.mk 9698 "ves_icall_MonoCustomAttrs_GetCustomAttributesDataInternal_raw",
   Prod.mk 9705 "ves_icall_MonoCustomAttrs_IsDefinedInternal_raw",
   Prod.mk 9716 "ves_icall_System_Reflection_FieldInfo_internal_from_handle_type_raw",
   Prod.mk 9719 "ves_icall_System_Reflection_FieldInfo_get_marshal_info_raw",
   Prod.mk 9742 "ves_icall_System_Reflection_LoaderAllocatorScout_Destroy",
   Prod.mk 9820 "ves_icall_System_Reflection_RuntimeAssembly_GetManifestResourceNames_raw",
   Prod.mk 9822 "ves_icall_System_Reflection_RuntimeAssembly_GetExportedTypes_raw",
   Prod.mk 9832 "ves_icall_System_Reflection_RuntimeAssembly_GetInfo_raw",
   Prod.mk 9834 "ves_icall_System_Reflection_RuntimeAssembly_GetManifestResourceInternal_raw",
   Prod.mk 9835 "ves_icall_System_Reflection_Assembly_GetManifestModuleInternal_raw",
   Prod.mk 9842 "ves_icall_System_Reflection_RuntimeCustomAttributeData_ResolveArgumentsInternal_raw",
   Prod.mk 9858 "ves_icall_RuntimeEventInfo_get_event_info_raw",
   Prod.mk 9878 "ves_icall_reflection_get_token_raw",
   Prod.mk 9879 "ves_icall_System_Reflection_EventInfo_internal_from_handle_type_raw",
   Prod.mk 9887 "ves_icall_RuntimeFieldInfo_ResolveType_raw",
   Prod.mk 9889 "ves_icall_RuntimeFieldInfo_GetParentType_raw",
   Prod.mk 9896 "ves_icall_RuntimeFieldInfo_GetFieldOffset_raw",
   Prod.mk 9897 "ves_icall_RuntimeFieldInfo_GetValueInternal_raw",
   Prod.mk 9900 "ves_icall_RuntimeFieldInfo_SetValueInternal_raw",
   Prod.mk 9902 "ves_icall_RuntimeFieldInfo_GetRawConstantValue_raw",
   Prod.mk 9907 "ves_icall_reflection_get_token_raw",
   Prod.mk 9913 "ves_icall_get_method_info_raw",
   Prod.mk 9914 "ves_icall_get_method_attributes",
   Prod.mk 9921 "ves_icall_System_Reflection_MonoMethodInfo_get_parameter_info_raw",
   Prod.mk 9923 "ves_icall_System_MonoMethodInfo_get_retval_marshal_raw",
   Prod.mk 9935 "ves_icall_System_Reflection_RuntimeMethodInfo_GetMethodFromHandleInternalType_native_raw",
   Prod.mk 9938 "ves_icall_RuntimeMethodInfo_get_name_raw",
   Prod.mk 9939 "ves_icall_RuntimeMethodInfo_get_base_method_raw",
   Prod.mk 9940 "ves_icall_reflection_get_token_raw",
   Prod.mk 9951 "ves_icall_InternalInvoke_raw",
   Prod.mk 9961 "ves_icall_RuntimeMethodInfo_GetPInvoke_raw",
   Prod.mk 9967 "ves_icall_RuntimeMethodInfo_MakeGenericMethod_impl_raw",
   Prod.mk 9968 "ves_icall_RuntimeMethodInfo_GetGenericArguments_raw",
   Prod.mk 9969 "ves_icall_RuntimeMethodInfo_GetGenericMethodDefinition_raw",
   Prod.mk 9971 "ves_icall_RuntimeMethodInfo_get_IsGenericMethodDefinition_raw",
   Prod.mk 9972 "ves_icall_RuntimeMethodInfo_get_IsGenericMethod_raw",
   Prod.mk 9989 "ves_icall_InvokeClassConstructor_raw",
   Prod.mk 9991 "ves_icall_InternalInvoke_raw",
   Prod.mk 10006 "ves_icall_reflection_get_token_raw",
   Prod.mk 10024 "ves_icall_System_Reflection_RuntimeModule_ResolveMethodToken_raw",
   Prod.mk 10051 "ves_icall_RuntimePropertyInfo_get_property_info_raw",
   Prod.mk 10081 "ves_icall_reflection_get_token_raw",
   Prod.mk 10082 "ves_icall_System_Reflection_RuntimePropertyInfo_internal_from_handle_type_raw",
   Prod.mk 10571 "ves_icall_DynamicMethod_create_dynamic_method_raw",
   Prod.mk 10657 "ves_icall_AssemblyBuilder_basic_init_raw",
   Prod.mk 10658 "ves_icall_AssemblyBuilder_UpdateNativeCustomAttributes_raw",
   Prod.mk 10870 "ves_icall_ModuleBuilder_basic_init_raw",
   Prod.mk 10871 "ves_icall_ModuleBuilder_set_wrappers_type_raw",
   Prod.mk 10878 "ves_icall_ModuleBuilder_getUSIndex_raw",
   Prod.mk 10879 "ves_icall_ModuleBuilder_getToken_raw",
   Prod.mk 10880 "ves_icall_ModuleBuilder_getMethodToken_raw",
   Prod.mk 10885 "ves_icall_ModuleBuilder_RegisterToken_raw",
   Prod.mk 10940 "ves_icall_TypeBuilder_create_runtime_class_raw",
   Prod.mk 11433 "ves_icall_System_IO_Stream_HasOverriddenBeginEndRead_raw",
   Prod.mk 11434 "ves_icall_System_IO_Stream_HasOverriddenBeginEndWrite_raw",
   Prod.mk 11819 "ves_icall_System_Diagnostics_Debugger_IsAttached_internal",
   Prod.mk 11821 "ves_icall_System_Diagnostics_Debugger_IsLogging",
   Prod.mk 11822 "ves_icall_System_Diagnostics_Debugger_Log",
   Prod.mk 11828 "ves_icall_System_Diagnostics_StackFrame_GetFrameInfo",
   Prod.mk 11838 "ves_icall_System_Diagnostics_StackTrace_GetTrace",
   Prod.mk 12812 "ves_icall_Mono_RuntimeClassHandle_GetTypeFromClass",
   Prod.mk 12833 "ves_icall_Mono_RuntimeGPtrArrayHandle_GPtrArrayFree",
   Prod.mk 12835 "ves_icall_Mono_SafeStringMarshal_StringToUtf8",
   Prod.mk 12837 "ves_icall_Mono_SafeStringMarshal_GFree"]

/-- A symbol ends with the given suffix. -/
def ends_with (s suffix : String) : Bool :=
  s.data.reverse.take suffix.data.length == suffix.data.reverse

/-- A prototype takes at least one parameter, all its parameters are `int`,
and it returns `int` or `void`. -/
def Proto.integer_only (p : Proto) : Bool :=
  !p.params.isEmpty && p.params.all (fun ty => decide (ty = CType.int)) &&
    (decide (p.ret = CType.int) || decide (p.ret = CType.void))

/-- The `i`-th prototype of the header, in file order. -/
def prototype_at (i : Nat) : Proto :=
  corlib_icall_prototypes.getD i ⟨CType.void, "", []⟩

/-- The prototypes among the items of a header, in file order. -/
def prototypes_of : List Decl → List Proto
  | [] => []
  | Decl.prototype p :: rest => p :: prototypes_of rest
  | _ :: rest => prototypes_of rest

/-- What a native routine does when it is called: it hands back a value or
signals a managed-level error. -/
inductive NativeResult (α ε : Type) where
  | value (v : α)
  | raised (err : ε)

/-- What the caller of the Invocation Adapter receives. -/
inductive InvokeResult (α ε : Type) where
  | returned (v : α)
  | propagated (err : ε)
  | undefined_behaviour
  | corrupt_flag

/-- Modelled from the spec: the Invocation Adapter (section 4.3), which the
header does not contain.  It calls the native routine of a resolved entry by
the convention its flag selects.  On the Wrapped path a value is returned and
a managed-level error is handed to the caller through the propagation path;
on the Raw path the value is returned directly and an error signalled by the
callee is outside the contract; any other flag is table corruption. -/
def invoke {α ε : Type} (e : Entry) (routine : List α → NativeResult α ε)
    (args : List α) : InvokeResult α ε :=
  if e.flags = FLAG_WRAPPED then
    match routine args with
    | NativeResult.value v => InvokeResult.returned v
    | NativeResult.raised err => InvokeResult.propagated err
  else if e.flags = FLAG_RAW then
    match routine args with
    | NativeResult.value v => InvokeResult.returned v
    | NativeResult.raised _ => InvokeResult.undefined_behaviour
  else InvokeResult.corrupt_flag

/-! ## Helper lemmas -/

theorem ascendingB_chain : ∀ l : List Int, ascendingB l = true → List.Chain' (· < ·) l
  | [], _ => List.chain'_nil
  | [_], _ => List.chain'_singleton _
  | a :: b :: rest, h => by
    simp only [ascendingB, Bool.and_eq_true, decide_eq_true_eq] at h
    exact List.Chain'.cons h.1 (ascendingB_chain (b :: rest) h.2)

theorem chain_pairwise (l : List Int) (h : List.Chain' (· < ·) l) : l.Pairwise (· < ·) :=
  List.chain'_iff_pairwise.mp h

theorem pairwise_getD (l : List Int) (h : l.Pairwise (· < ·)) (i j : Nat) (hij : i < j)
    (hj : j < l.length) : l.getD i 0 < l.getD j 0 := by
  have hi : i < l.length := lt_trans hij hj
  rw [List.getD_eq_getElem _ _ hi, List.getD_eq_getElem _ _ hj]
  exact List.pairwise_iff_getElem.mp h i j hi hj hij

theorem corlib_indexes_ascendingB : ascendingB corlib_icall_indexes = true := by decide

theorem corlib_indexes_pairwise : corlib_icall_indexes.Pairwise (· < ·) :=
  chain_pairwise _ (ascendingB_chain _ corlib_indexes_ascendingB)

theorem corlib_indexes_length : corlib_icall_indexes.length = 203 := by decide

theorem corlib_funcs_length : corlib_icall_funcs.length = 203 := by decide

theorem corlib_flags_length : corlib_icall_flags.length = 203 := by decide

theorem corlib_prototype_names :
    corlib_icall_prototypes.map (fun p => p.name) = corlib_icall_funcs := by decide

theorem corlib_prototypes_scalar : corlib_icall_prototypes.all Proto.scalar_only = true := by
  decide

theorem corlib_funcs_declared (i : Nat) (hi : i < 203) :
    ∃ p ∈ corlib_icall_prototypes, p.name = corlib_icall_funcs.getD i "" := by
  have hl : i < corlib_icall_funcs.length := by rw [corlib_funcs_length]; exact hi
  have hm : corlib_icall_funcs.getD i "" ∈ corlib_icall_funcs := by
    rw [List.getD_eq_getElem _ _ hl]
    exact List.getElem_mem hl
  rw [← corlib_prototype_names] at hm
  obtain ⟨p, hp, hpn⟩ := List.mem_map.mp hm
  exact ⟨p, hp, by rw [← corlib_prototype_names]; exact hpn⟩

theorem pairwiseB_pairwise {α : Type} (r : α → α → Bool) :
    ∀ l : List α, pairwiseB r l = true → l.Pairwise (fun a b => r a b = true)
  | [], _ => List.Pairwise.nil
  | a :: rest, h => by
    simp only [pairwiseB, Bool.and_eq_true, List.all_eq_true] at h
    exact List.Pairwise.cons h.1 (pairwiseB_pairwise r rest h.2)

theorem corlib_funcs_shared_only :
    pairwiseB (shared_only ["ves_icall_reflection_get_token_raw", "ves_icall_InternalInvoke_raw"])
      (corlib_icall_funcs.map (fun s => (sym_key s, s))) = true := by decide

theorem corlib_funcs_shared_lt (i j : Nat) (hij : i < j) (hj : j < 203)
    (h : corlib_icall_funcs.getD i "" = corlib_icall_funcs.getD j "") :
    corlib_icall_funcs.getD i "" = "ves_icall_reflection_get_token_raw" ∨
    corlib_icall_funcs.getD i "" = "ves_icall_InternalInvoke_raw" := by
  have hjl : j < corlib_icall_funcs.length := by rw [corlib_funcs_length]; exact hj
  have hil : i < corlib_icall_funcs.length := lt_trans hij hjl
  have hp := pairwiseB_pairwise _ _ corlib_funcs_shared_only
  have hr := List.pairwise_iff_getElem.mp hp i j (by simpa using hil) (by simpa using hjl) hij
  rw [List.getD_eq_getElem _ _ hil, List.getD_eq_getElem _ _ hjl] at h
  rw [List.getD_eq_getElem _ _ hil]
  simp only [List.getElem_map, shared_only, h, bne_self_eq_false, Bool.false_or,
    List.contains_eq_any_beq, List.any_cons, List.any_nil, Bool.or_false, Bool.or_eq_true,
    beq_iff_eq] at hr
  rw [h]
  rcases hr with hr | hr
  · exact Or.inl hr
  · exact Or.inr hr

theorem getD_le_of_le (l : List Int) (h : l.Pairwise (· < ·)) (i j : Nat) (hij : i ≤ j)
    (hj : j < l.length) : l.getD i 0 ≤ l.getD j 0 := by
  rcases Nat.eq_or_lt_of_le hij with e | hlt
  · rw [e]
  · exact le_of_lt (pairwise_getD l h i j hlt hj)

theorem mem_iff_getD (l : List Int) (t : Int) :
    t ∈ l ↔ ∃ i, i < l.length ∧ l.getD i 0 = t := by
  constructor
  · intro h
    obtain ⟨i, hi, e⟩ := List.getElem_of_mem h
    exact ⟨i, hi, by rw [List.getD_eq_getElem _ _ hi]; exact e⟩
  · rintro ⟨i, hi, e⟩
    rw [List.getD_eq_getElem _ _ hi] at e
    rw [← e]
    exact List.getElem_mem hi

theorem bsearch_spec (tokens : List Int) (t : Int) (hs : tokens.Pairwise (· < ·)) :
    ∀ steps lo hi : Nat, hi ≤ tokens.length → hi - lo < steps →
      (∀ i, i < lo → tokens.getD i 0 < t) →
      (∀ i, hi ≤ i → i < tokens.length → t < tokens.getD i 0) →
      (∃ i, i < tokens.length ∧ tokens.getD i 0 = t ∧
          bsearch tokens t steps lo hi = Outcome.found i) ∨
        (t ∉ tokens ∧ bsearch tokens t steps lo hi = Outcome.notFound) := by
  intro steps
  induction steps with
  | zero => intro lo hi _ h; omega
  | succ n ih =>
    intro lo hi hhi hfuel hlo hup
    by_cases hlt : lo < hi
    · have hmid_lo : lo ≤ lo + (hi - lo) / 2 := Nat.le_add_right _ _
      have hmid_hi : lo + (hi - lo) / 2 < hi := by omega
      have hmid_len : lo + (hi - lo) / 2 < tokens.length := lt_of_lt_of_le hmid_hi hhi
      by_cases heq : tokens.getD (lo + (hi - lo) / 2) 0 = t
      · refine Or.inl ⟨lo + (hi - lo) / 2, hmid_len, heq, ?_⟩
        simp only [bsearch, if_pos hlt, if_pos heq]
      · by_cases hless : tokens.getD (lo + (hi - lo) / 2) 0 < t
        · have hrec := ih (lo + (hi - lo) / 2 + 1) hi hhi (by omega)
            (fun i hi' => lt_of_le_of_lt
              (getD_le_of_le tokens hs i _ (by omega) hmid_len) hless)
            hup
          simp only [bsearch, if_pos hlt, if_neg heq, if_pos hless]
          exact hrec
        · have hgt : t < tokens.getD (lo + (hi - lo) / 2) 0 := by omega
          have hrec := ih lo (lo + (hi - lo) / 2) (le_of_lt hmid_len) (by omega) hlo
            (fun i hi' hil => lt_of_lt_of_le hgt (getD_le_of_le tokens hs _ i hi' hil))
          simp only [bsearch, if_pos hlt, if_neg heq, if_neg hless]
          exact hrec
    · refine Or.inr ⟨?_, by simp only [bsearch, if_neg hlt]⟩
      intro hmem
      obtain ⟨i, hi, e⟩ := (mem_iff_getD tokens t).mp hmem
      by_cases hil : i < lo
      · have := hlo i hil
        omega
      · have := hup i (by omega) hi
        omega

theorem resolve_index_spec (tokens : List Int) (t : Int) (hs : tokens.Pairwise (· < ·)) :
    (∃ i, i < tokens.length ∧ tokens.getD i 0 = t ∧
        resolve_index tokens t = Outcome.found i) ∨
      (t ∉ tokens ∧ resolve_index tokens t = Outcome.notFound) :=
  bsearch_spec tokens t hs (tokens.length + 1) 0 tokens.length (le_refl _) (by omega)
    (fun i hi => absurd hi (Nat.not_lt_zero i)) (fun i h1 h2 => absurd h2 (by omega))

theorem bsearch_terminates (tokens : List Int) (t : Int) :
    ∀ steps lo hi : Nat, hi - lo < steps → bsearch tokens t steps lo hi ≠ Outcome.outOfSteps := by
  intro steps
  induction steps with
  | zero => intro lo hi h; omega
  | succ n ih =>
    intro lo hi hfuel
    simp only [bsearch]
    split_ifs with h1 h2 h3
    · simp
    · exact ih _ _ (by omega)
    · exact ih _ _ (by omega)
    · simp

theorem linear_scan_from_spec (t : Int) :
    ∀ (l : List Int) (k : Nat),
      (∃ i, i < l.length ∧ l.getD i 0 = t ∧ (∀ j, j < i → l.getD j 0 ≠ t) ∧
          linear_scan_from t l k = Outcome.found (k + i)) ∨
        (t ∉ l ∧ linear_scan_from t l k = Outcome.notFound)
  | [], k => Or.inr ⟨List.not_mem_nil t, rfl⟩
  | x :: rest, k => by
    by_cases hx : x = t
    · refine Or.inl ⟨0, by simp, by simp [hx], by intro j hj; omega, ?_⟩
      simp [linear_scan_from, hx]
    · rcases linear_scan_from_spec t rest (k + 1) with ⟨i, hi, e, hmin, hr⟩ | ⟨hn, hr⟩
      · refine Or.inl ⟨i + 1, by simp; omega, by simpa using e, ?_, ?_⟩
        · intro j hj
          cases j with
          | zero => simpa using hx
          | succ j => simpa using hmin j (by omega)
        · simp only [linear_scan_from, if_neg hx, hr]
          congr 1
          omega
      · refine Or.inr ⟨?_, by simp only [linear_scan_from, if_neg hx, hr]⟩
        simp only [List.mem_cons, not_or]
        exact ⟨fun h => hx h.symm, hn⟩

theorem resolve_index_eq_linear_scan (tokens : List Int) (hs : tokens.Pairwise (· < ·))
    (t : Int) : resolve_index tokens t = linear_scan tokens t := by
  rcases resolve_index_spec tokens t hs with ⟨i, hi, e, hr⟩ | ⟨hn, hr⟩
  · rcases linear_scan_from_spec t tokens 0 with ⟨j, hj, e', _, hl⟩ | ⟨hn', _⟩
    · have hij : i = j := by
        rcases Nat.lt_trichotomy i j with h | h | h
        · have := pairwise_getD tokens hs i j h hj
          omega
        · exact h
        · have := pairwise_getD tokens hs j i h hi
          omega
      rw [hr, linear_scan, hl, hij, Nat.zero_add]
    · exact absurd ((mem_iff_getD tokens t).mpr ⟨i, hi, e⟩) hn'
  · rcases linear_scan_from_spec t tokens 0 with ⟨j, hj, e', _, _⟩ | ⟨_, hl⟩
    · exact absurd ((mem_iff_getD tokens t).mpr ⟨j, hj, e'⟩) hn
    · rw [hr, linear_scan, hl]

theorem resolve_spec (s : EntryStore) (hs : s.indexes.Pairwise (· < ·)) (t : Int) :
    (∃ i, i < s.indexes.length ∧ s.indexes.getD i 0 = t ∧
        (∀ j, j < s.indexes.length → s.indexes.getD j 0 = t → j = i) ∧
        resolve s t = Outcome.found (s.entry i)) ∨
      (t ∉ s.indexes ∧ resolve s t = Outcome.notFound) := by
  rcases resolve_index_spec s.indexes t hs with ⟨i, hi, e, hr⟩ | ⟨hn, hr⟩
  · refine Or.inl ⟨i, hi, e, ?_, by simp only [resolve, hr]⟩
    intro j hj ej
    rcases Nat.lt_trichotomy j i with h | h | h
    · have := pairwise_getD s.indexes hs j i h hi
      omega
    · exact h
    · have := pairwise_getD s.indexes hs i j h hj
      omega
  · exact Or.inr ⟨hn, by simp only [resolve, hr]⟩


theorem construct_from_spec :
    ∀ (l : List Tuple) (prev : Option Int),
      (∃ s, construct_from prev l = Except.ok s ∧
          List.Chain' (· < ·) (prev.toList ++ l.map (fun x => x.token)) ∧
          (∀ x ∈ l, x.native_entry ≠ none) ∧
          (∀ x ∈ l, x.flags = 0 ∨ x.flags = 4) ∧
          s.indexes = l.map (fun x => x.token) ∧
          s.funcs.map some = l.map (fun x => x.native_entry) ∧
          s.flags = l.map (fun x => x.flags)) ∨
        (∃ e, construct_from prev l = Except.error e ∧
          (¬ List.Chain' (· < ·) (prev.toList ++ l.map (fun x => x.token)) ∨
            (∃ x ∈ l, x.native_entry = none) ∨
            (∃ x ∈ l, x.flags ≠ 0 ∧ x.flags ≠ 4)))
  | [], prev => by
    refine Or.inl ⟨⟨[], [], []⟩, rfl, ?_, by simp, by simp, rfl, rfl, rfl⟩
    cases prev <;> simp
  | x :: rest, prev => by
    have hchain : List.Chain' (· < ·) (prev.toList ++ (x :: rest).map (fun x => x.token)) ↔
        (prev.any (fun p => decide (x.token ≤ p)) = false ∧
          List.Chain' (· < ·) ((some x.token).toList ++ rest.map (fun x => x.token))) := by
      cases prev with
      | none => simp
      | some p => simp [List.chain'_cons]
    by_cases hord : prev.any (fun p => decide (x.token ≤ p)) = true
    · refine Or.inr ⟨BuildError.unsorted, by simp only [construct_from, if_pos hord], Or.inl ?_⟩
      rw [hchain]
      simp [hord]
    · have hord' : prev.any (fun p => decide (x.token ≤ p)) = false := by simpa using hord
      cases hne : x.native_entry with
      | none =>
        refine Or.inr ⟨BuildError.null_entry, ?_, Or.inr (Or.inl ⟨x, List.mem_cons_self _ _, hne⟩)⟩
        simp only [construct_from, if_neg hord, hne]
      | some f =>
        by_cases hflag : x.flags ≠ FLAG_WRAPPED ∧ x.flags ≠ FLAG_RAW
        · refine Or.inr ⟨BuildError.bad_flag, ?_,
            Or.inr (Or.inr ⟨x, List.mem_cons_self _ _, hflag⟩)⟩
          simp only [construct_from, if_neg hord, hne, if_pos hflag]
        · have hflag' : x.flags = 0 ∨ x.flags = 4 := by
            simp only [FLAG_WRAPPED, FLAG_RAW] at hflag
            omega
          rcases construct_from_spec rest (some x.token) with
            ⟨s, hs, hc, hn, hf, e1, e2, e3⟩ | ⟨e, he, hbad⟩
          · refine Or.inl ⟨⟨x.token :: s.indexes, f :: s.funcs, x.flags :: s.flags⟩, ?_,
              hchain.mpr ⟨hord', hc⟩, ?_, ?_, ?_, ?_, ?_⟩
            · simp only [construct_from, if_neg hord, hne, if_neg hflag, hs]
            · intro y hy
              rcases List.mem_cons.mp hy with rfl | hy
              · simp [hne]
              · exact hn y hy
            · intro y hy
              rcases List.mem_cons.mp hy with rfl | hy
              · exact hflag'
              · exact hf y hy
            · simp [e1]
            · simp [e2, hne]
            · simp [e3]
          · refine Or.inr ⟨e, ?_, ?_⟩
            · simp only [construct_from, if_neg hord, hne, if_neg hflag, he]
            · rcases hbad with hb | ⟨y, hy, hb⟩ | ⟨y, hy, hb⟩
              · exact Or.inl (fun h => hb (hchain.mp h).2)
              · exact Or.inr (Or.inl ⟨y, List.mem_cons_of_mem _ hy, hb⟩)
              · exact Or.inr (Or.inr ⟨y, List.mem_cons_of_mem _ hy, hb⟩)

theorem corlib_annotated_tokens :
    corlib_icall_funcs_annotated.map (fun a => a.1) = corlib_icall_indexes := by decide

theorem corlib_annotated_funcs :
    corlib_icall_funcs_annotated.map (fun a => a.2) = corlib_icall_funcs := by decide

theorem corlib_flag_by_name :
    (List.range 203).all (fun i =>
      (decide (corlib_icall_flags.getD i 0 = 4) == ends_with (corlib_icall_funcs.getD i "") "_raw")
        && decide (corlib_icall_flags.getD i 0 = 4 ∨ corlib_icall_flags.getD i 0 = 0)) = true := by
  decide

theorem corlib_raw_integer_only :
    (List.range 203).all (fun i =>
      corlib_icall_flags.getD i 0 != 4 || (prototype_at i).integer_only) = true := by
  decide

theorem corlib_repeated_prototypes :
    corlib_icall_prototypes.all (fun p =>
      (p.name != "ves_icall_reflection_get_token_raw" ||
        p == ⟨CType.int, "ves_icall_reflection_get_token_raw", [CType.int, CType.int]⟩) &&
      (p.name != "ves_icall_InternalInvoke_raw" ||
        p == ⟨CType.int, "ves_icall_InternalInvoke_raw",
          [CType.int, CType.int, CType.int, CType.int, CType.int]⟩)) = true := by
  decide

theorem corlib_prototypes_length : corlib_icall_prototypes.length = 203 := by decide

theorem prototypes_of_map (l : List Proto) (rest : List Decl) :
    prototypes_of (l.map Decl.prototype ++ rest) = l ++ prototypes_of rest := by
  induction l with
  | nil => rfl
  | cons p l ih => simp [prototypes_of, ih]

theorem prototype_at_name (i : Nat) :
    (prototype_at i).name = corlib_icall_funcs.getD i "" := by
  have h := List.getD_map (n := i) (d := (⟨CType.void, "", []⟩ : Proto))
    (f := fun p : Proto => p.name) (l := corlib_icall_prototypes)
  rw [corlib_prototype_names] at h
  exact h.symm

theorem prototype_at_of_mem (p : Proto) (hp : p ∈ corlib_icall_prototypes) :
    ∃ j, j < 203 ∧ prototype_at j = p := by
  obtain ⟨j, hj, e⟩ := List.getElem_of_mem hp
  refine ⟨j, by rw [← corlib_prototypes_length]; exact hj, ?_⟩
  rw [prototype_at, List.getD_eq_getElem _ _ hj]
  exact e

theorem prototype_at_mem (i : Nat) (hi : i < 203) : prototype_at i ∈ corlib_icall_prototypes := by
  have hl : i < corlib_icall_prototypes.length := by rw [corlib_prototypes_length]; exact hi
  rw [prototype_at, List.getD_eq_getElem _ _ hl]
  exact List.getElem_mem hl

theorem corlib_flag_by_name_at (i : Nat) (hi : i < 203) :
    (corlib_icall_flags.getD i 0 = 4 ↔ ends_with (corlib_icall_funcs.getD i "") "_raw" = true) ∧
    (corlib_icall_flags.getD i 0 = 4 ∨ corlib_icall_flags.getD i 0 = 0) := by
  have h := List.all_eq_true.mp corlib_flag_by_name i (List.mem_range.mpr hi)
  simp only [Bool.and_eq_true, beq_iff_eq, decide_eq_true_eq] at h
  refine ⟨?_, h.2⟩
  rw [← h.1]
  simp

theorem corlib_flag_of_same_name (i j : Nat) (hi : i < 203) (hj : j < 203)
    (h : corlib_icall_funcs.getD i "" = corlib_icall_funcs.getD j "") :
    corlib_icall_flags.getD i 0 = corlib_icall_flags.getD j 0 := by
  obtain ⟨hi1, hi2⟩ := corlib_flag_by_name_at i hi
  obtain ⟨hj1, hj2⟩ := corlib_flag_by_name_at j hj
  rw [h] at hi1
  by_cases hr : ends_with (corlib_icall_funcs.getD j "") "_raw" = true
  · rw [hi1.mpr hr, hj1.mpr hr]
  · have ni : corlib_icall_flags.getD i 0 ≠ 4 := fun e => hr (hi1.mp e)
    have nj : corlib_icall_flags.getD j 0 ≠ 4 := fun e => hr (hj1.mp e)
    omega

theorem integer_only_spec (p : Proto) (h : p.integer_only = true) :
    p.params ≠ [] ∧ (∀ ty ∈ p.params, ty = CType.int) ∧
      (p.ret = CType.int ∨ p.ret = CType.void) := by
  simp only [Proto.integer_only, Bool.and_eq_true, Bool.or_eq_true, decide_eq_true_eq,
    List.all_eq_true, Bool.not_eq_true', List.isEmpty_eq_false] at h
  exact ⟨h.1.1, h.1.2, h.2⟩

theorem corlib_raw_prototype (i : Nat) (hi : i < 203) (hraw : corlib_icall_flags.getD i 0 = 4)
    (p : Proto) (hp : p ∈ corlib_icall_prototypes)
    (hn : p.name = corlib_icall_funcs.getD i "") : p.integer_only = true := by
  obtain ⟨j, hj, e⟩ := prototype_at_of_mem p hp
  have hname : corlib_icall_funcs.getD j "" = corlib_icall_funcs.getD i "" := by
    rw [← prototype_at_name j, e, hn]
  have hflag : corlib_icall_flags.getD j 0 = 4 := by
    rw [corlib_flag_of_same_name j i hj hi hname, hraw]
  have h := List.all_eq_true.mp corlib_raw_integer_only j (List.mem_range.mpr hj)
  rw [e, hflag] at h
  simpa using h

theorem corlib_same_name_same_prototype (p q : Proto) (hp : p ∈ corlib_icall_prototypes)
    (hq : q ∈ corlib_icall_prototypes) (h : p.name = q.name) : p = q := by
  obtain ⟨i, hi, ei⟩ := prototype_at_of_mem p hp
  obtain ⟨j, hj, ej⟩ := prototype_at_of_mem q hq
  have hname : corlib_icall_funcs.getD i "" = corlib_icall_funcs.getD j "" := by
    rw [← prototype_at_name i, ← prototype_at_name j, ei, ej, h]
  have hshared : i = j ∨ p.name = "ves_icall_reflection_get_token_raw" ∨
      p.name = "ves_icall_InternalInvoke_raw" := by
    have hpn : p.name = corlib_icall_funcs.getD i "" := by rw [← prototype_at_name i, ei]
    rcases Nat.lt_trichotomy i j with hlt | heq | hgt
    · rw [hpn]
      exact Or.inr (corlib_funcs_shared_lt i j hlt hj hname)
    · exact Or.inl heq
    · rw [hpn, hname]
      exact Or.inr (corlib_funcs_shared_lt j i hgt hi hname.symm)
  have hp' := List.all_eq_true.mp corlib_repeated_prototypes p hp
  have hq' := List.all_eq_true.mp corlib_repeated_prototypes q hq
  simp only [Bool.and_eq_true, Bool.or_eq_true, bne_iff_ne, ne_eq, beq_iff_eq] at hp' hq'
  rcases hshared with e | e | e
  · rw [← ei, ← ej, e]
  · rcases hp'.1 with h1 | h1
    · exact absurd e h1
    · rcases hq'.1 with h2 | h2
      · exact absurd (h ▸ e) h2
      · rw [h1, h2]
  · rcases hp'.2 with h1 | h1
    · exact absurd e h1
    · rcases hq'.2 with h2 | h2
      · exact absurd (h ▸ e) h2
      · rw [h1, h2]

theorem corlib_shared_tokens :
    (List.range 203).all (fun i =>
      (decide (corlib_icall_funcs.getD i "" = "ves_icall_reflection_get_token_raw") ==
        decide (corlib_icall_indexes.getD i 0 ∈ ([9878, 9907, 9940, 10006, 10081] : List Int)))
      && (decide (corlib_icall_funcs.getD i "" = "ves_icall_InternalInvoke_raw") ==
        decide (corlib_icall_indexes.getD i 0 ∈ ([9951, 9991] : List Int)))) = true := by
  decide

theorem corlib_shared_tokens_at (i : Nat) (hi : i < 203) :
    (corlib_icall_funcs.getD i "" = "ves_icall_reflection_get_token_raw" ↔
      corlib_icall_indexes.getD i 0 ∈ ([9878, 9907, 9940, 10006, 10081] : List Int)) ∧
    (corlib_icall_funcs.getD i "" = "ves_icall_InternalInvoke_raw" ↔
      corlib_icall_indexes.getD i 0 ∈ ([9951, 9991] : List Int)) := by
  have h := List.all_eq_true.mp corlib_shared_tokens i (List.mem_range.mpr hi)
  simp only [Bool.and_eq_true, beq_iff_eq, decide_eq_decide] at h
  exact h

/-! ## The claims -/

/-- Claim C1. The token table `corlib_icall_indexes` has 203 elements and is
strictly ascending: each element is below its successor; consequently no token
value occurs at two positions. -/
theorem C1_indexes_strictly_ascending :
    corlib_icall_indexes.length = 203 ∧
    (∀ i : Nat, i + 1 < 203 →
      corlib_icall_indexes.getD i 0 < corlib_icall_indexes.getD (i + 1) 0) ∧
    (∀ i j : Nat, i < 203 → j < 203 →
      corlib_icall_indexes.getD i 0 = corlib_icall_indexes.getD j 0 → i = j) ∧
    corlib_icall_indexes.Nodup := by
  refine ⟨corlib_indexes_length, ?_, ?_, ?_⟩
  · intro i hi
    exact pairwise_getD _ corlib_indexes_pairwise i (i + 1) (Nat.lt_succ_self i)
      (by rw [corlib_indexes_length]; exact hi)
  · intro i j hi hj h
    rcases Nat.lt_trichotomy i j with hlt | heq | hgt
    · have := pairwise_getD _ corlib_indexes_pairwise i j hlt
        (by rw [corlib_indexes_length]; exact hj)
      omega
    · exact heq
    · have := pairwise_getD _ corlib_indexes_pairwise j i hgt
        (by rw [corlib_indexes_length]; exact hi)
      omega
  · exact corlib_indexes_pairwise.imp (fun h => ne_of_lt h)

theorem C1_indexes_strictly_ascending_witness :
    corlib_icall_indexes.getD 0 0 < corlib_icall_indexes.getD 1 0 :=
  C1_indexes_strictly_ascending.2.1 0 (by decide)

/-- Claim C2. The three tables `corlib_icall_indexes`, `corlib_icall_funcs` and
`corlib_icall_flags` have 203 elements each, so a positional index is valid in
one exactly when it is valid in the others, and the entry count of the store
is the length of any of the three. -/
theorem C2_tables_equal_length :
    corlib_icall_indexes.length = 203 ∧
    corlib_icall_funcs.length = 203 ∧
    corlib_icall_flags.length = 203 ∧
    (∀ i : Nat, (i < corlib_icall_indexes.length ↔ i < corlib_icall_funcs.length) ∧
      (i < corlib_icall_funcs.length ↔ i < corlib_icall_flags.length)) ∧
    corlib.count = corlib.indexes.length ∧
    corlib.count = corlib.funcs.length ∧
    corlib.count = corlib.flags.length := by
  refine ⟨corlib_indexes_length, corlib_funcs_length, corlib_flags_length, ?_, rfl, ?_, ?_⟩
  · intro i
    rw [corlib_indexes_length, corlib_funcs_length, corlib_flags_length]
    exact ⟨Iff.rfl, Iff.rfl⟩
  · show corlib_icall_indexes.length = corlib_icall_funcs.length
    rw [corlib_indexes_length, corlib_funcs_length]
  · show corlib_icall_indexes.length = corlib_icall_flags.length
    rw [corlib_indexes_length, corlib_flags_length]

/-- Claim C3. For every integer token `t`, binary search over
`corlib_icall_indexes` finishes within its step budget; when `t` is stored it
returns the entry made of the three tables at the unique position holding `t`,
and when `t` is not stored (as for 217) it returns NotFound; an entry it
returns always carries the token asked for.  The same holds for the
three-entry table of the spec, where 200 resolves to the Raw entry of `fnB`
and 150 to NotFound.  On any token list the search ends within its budget. -/
theorem C3_resolve_correct :
    (∀ t : Int, resolve corlib t ≠ Outcome.outOfSteps) ∧
    (∀ t : Int, t ∈ corlib_icall_indexes →
      ∃ i, i < 203 ∧ corlib_icall_indexes.getD i 0 = t ∧
        (∀ j, j < 203 → corlib_icall_indexes.getD j 0 = t → j = i) ∧
        resolve corlib t = Outcome.found
          ⟨corlib_icall_indexes.getD i 0, corlib_icall_funcs.getD i "",
            corlib_icall_flags.getD i 0⟩) ∧
    (∀ t : Int, t ∉ corlib_icall_indexes → resolve corlib t = Outcome.notFound) ∧
    (216 < (217 : Int) ∧ (217 : Int) < 227 ∧ (217 : Int) ∉ corlib_icall_indexes ∧
      resolve corlib 217 = Outcome.notFound) ∧
    (∀ (t : Int) (e : Entry), resolve corlib t = Outcome.found e → e.token = t) ∧
    (∀ t : Int, resolve scenario_table t ≠ Outcome.outOfSteps) ∧
    (∀ (t : Int) (e : Entry), resolve scenario_table t = Outcome.found e →
      e.token = t ∧ t ∈ scenario_table.indexes) ∧
    (∀ t : Int, t ∉ scenario_table.indexes → resolve scenario_table t = Outcome.notFound) ∧
    resolve scenario_table 200 = Outcome.found ⟨200, "fnB", FLAG_RAW⟩ ∧
    resolve scenario_table 150 = Outcome.notFound ∧
    (∀ (tokens : List Int) (t : Int), resolve_index tokens t ≠ Outcome.outOfSteps) := by
  have hc : corlib.indexes.Pairwise (· < ·) := corlib_indexes_pairwise
  have hsc : scenario_table.indexes.Pairwise (· < ·) := by
    simp [scenario_table]
  have key : ∀ (s : EntryStore), s.indexes.Pairwise (· < ·) →
      (∀ t : Int, resolve s t ≠ Outcome.outOfSteps) ∧
      (∀ (t : Int) (e : Entry), resolve s t = Outcome.found e →
        e.token = t ∧ t ∈ s.indexes) ∧
      (∀ t : Int, t ∉ s.indexes → resolve s t = Outcome.notFound) := by
    intro s hs
    refine ⟨?_, ?_, ?_⟩
    · intro t
      rcases resolve_spec s hs t with ⟨i, _, _, _, hr⟩ | ⟨_, hr⟩ <;> rw [hr] <;> simp
    · intro t e he
      rcases resolve_spec s hs t with ⟨i, hi, ei, _, hr⟩ | ⟨_, hr⟩
      · rw [hr] at he
        injection he with he
        rw [← he]
        exact ⟨ei, (mem_iff_getD s.indexes t).mpr ⟨i, hi, ei⟩⟩
      · rw [hr] at he
        cases he
    · intro t ht
      rcases resolve_spec s hs t with ⟨i, hi, ei, _, _⟩ | ⟨_, hr⟩
      · exact absurd ((mem_iff_getD s.indexes t).mpr ⟨i, hi, ei⟩) ht
      · exact hr
  obtain ⟨k1, k2, k3⟩ := key corlib hc
  obtain ⟨s1, s2, s3⟩ := key scenario_table hsc
  refine ⟨k1, ?_, k3, ⟨by decide, by decide, by decide, by decide⟩,
    fun t e he => (k2 t e he).1, s1, s2, s3, by decide, by decide,
    fun tokens t => bsearch_terminates tokens t _ _ _ (by omega)⟩
  intro t ht
  rcases resolve_spec corlib hc t with ⟨i, hi, ei, hu, hr⟩ | ⟨hn, _⟩
  · have hi' : i < 203 := by
      have : corlib.indexes.length = 203 := corlib_indexes_length
      omega
    refine ⟨i, hi', ei, ?_, hr⟩
    intro j hj ej
    exact hu j (by
      have : corlib.indexes.length = 203 := corlib_indexes_length
      omega) ej
  · exact absurd ht hn

theorem C3_resolve_correct_witness :
    resolve corlib 9951 = Outcome.found ⟨9951, "ves_icall_InternalInvoke_raw", 4⟩ := by
  obtain ⟨i, _, _, hu, hr⟩ := C3_resolve_correct.2.1 9951 (by decide)
  have hi : 168 = i := hu 168 (by decide) (by decide)
  rw [← hi] at hr
  exact hr

/-- Claim C4. The values occurring in `corlib_icall_flags` are exactly 0 and 4:
every element is 0 (Wrapped) or 4 (Raw), and each of the two occurs. -/
theorem C4_flags_exactly_wrapped_raw :
    (∀ b ∈ corlib_icall_flags, b = 0 ∨ b = 4) ∧
    0 ∈ corlib_icall_flags ∧ 4 ∈ corlib_icall_flags ∧
    FLAG_WRAPPED = 0 ∧ FLAG_RAW = 4 := by
  refine ⟨?_, ?_, ?_, rfl, rfl⟩
  · have h : corlib_icall_flags.all (fun b => decide (b = 0 ∨ b = 4)) = true := by decide
    intro b hb
    exact of_decide_eq_true (List.all_eq_true.mp h b hb)
  · decide
  · decide

theorem C4_flags_exactly_wrapped_raw_witness :
    corlib_icall_flags.getD 5 0 = 0 ∨ corlib_icall_flags.getD 5 0 = 4 :=
  C4_flags_exactly_wrapped_raw.1 (corlib_icall_flags.getD 5 0) (by decide)

/-- Claim C5. No position of `corlib_icall_funcs` holds a null or invalid
entry: each of its 203 elements is the name of a function for which the header
has a prototype, and every prototype stands before the pointer table in the
header; in particular no element is the null pointer constant. -/
theorem C5_funcs_declared_before_table :
    corlib_icall_funcs.length = 203 ∧
    (∃ pre post : List Decl,
      icall_table_h = pre ++ Decl.ptr_array "corlib_icall_funcs" corlib_icall_funcs :: post ∧
      ∀ i : Nat, i < 203 →
        ∃ p : Proto, Decl.prototype p ∈ pre ∧ p.name = corlib_icall_funcs.getD i "") ∧
    "0" ∉ corlib_icall_funcs ∧ "NULL" ∉ corlib_icall_funcs ∧ "" ∉ corlib_icall_funcs := by
  refine ⟨corlib_funcs_length, ⟨[Decl.define "ICALL_TABLE_corlib" 1,
      Decl.int_array "corlib_icall_indexes" corlib_icall_indexes]
      ++ corlib_icall_prototypes.map Decl.prototype,
    [Decl.byte_array "corlib_icall_flags" corlib_icall_flags], rfl, ?_⟩, ?_, ?_, ?_⟩
  · intro i hi
    obtain ⟨p, hp, hpn⟩ := corlib_funcs_declared i hi
    exact ⟨p, List.mem_append_right _ (List.mem_map_of_mem _ hp), hpn⟩
  · decide
  · decide
  · decide

theorem C5_funcs_declared_before_table_witness :
    ∃ pre post : List Decl,
      icall_table_h = pre ++ Decl.ptr_array "corlib_icall_funcs" corlib_icall_funcs :: post ∧
      ∃ p : Proto, Decl.prototype p ∈ pre ∧ p.name = corlib_icall_funcs.getD 0 "" := by
  obtain ⟨pre, post, e, h⟩ := C5_funcs_declared_before_table.2.1
  exact ⟨pre, post, e, h 0 (by decide)⟩

/-- Counterexample to claim C6 as stated: positions 151 and 159 of
`corlib_icall_funcs` (tokens 9878 and 9907) hold the same native entry point,
so the map from stored token to native routine is not injective. -/
theorem C6_counterexample :
    corlib_icall_funcs.getD 151 "" = "ves_icall_reflection_get_token_raw" ∧
    corlib_icall_funcs.getD 159 "" = "ves_icall_reflection_get_token_raw" ∧
    corlib_icall_indexes.getD 151 0 = 9878 ∧
    corlib_icall_indexes.getD 159 0 = 9907 ∧
    ¬ (∀ i j : Nat, i < 203 → j < 203 →
        corlib_icall_funcs.getD i "" = corlib_icall_funcs.getD j "" → i = j) := by
  refine ⟨by decide, by decide, by decide, by decide, ?_⟩
  intro h
  have := h 151 159 (by decide) (by decide) (by decide)
  omega

/-- Claim C6, amended. Two different positions of `corlib_icall_funcs` name the
same native entry point only when it is `ves_icall_reflection_get_token_raw`
or `ves_icall_InternalInvoke_raw`; apart from these two routines the map from
stored token to native routine is injective.  The first is stored five times,
under exactly the tokens 9878, 9907, 9940, 10006 and 10081 of
`corlib_icall_indexes`; the second twice, under exactly the tokens 9951 and
9991. -/
theorem C6_shared_routines_only :
    (∀ i j : Nat, i < 203 → j < 203 →
      corlib_icall_funcs.getD i "" = corlib_icall_funcs.getD j "" →
      i = j ∨ corlib_icall_funcs.getD i "" = "ves_icall_reflection_get_token_raw" ∨
        corlib_icall_funcs.getD i "" = "ves_icall_InternalInvoke_raw") ∧
    corlib_icall_funcs.count "ves_icall_reflection_get_token_raw" = 5 ∧
    corlib_icall_funcs.count "ves_icall_InternalInvoke_raw" = 2 ∧
    (∀ i : Nat, i < 203 →
      (corlib_icall_funcs.getD i "" = "ves_icall_reflection_get_token_raw" ↔
        corlib_icall_indexes.getD i 0 ∈ ([9878, 9907, 9940, 10006, 10081] : List Int))) ∧
    (∀ i : Nat, i < 203 →
      (corlib_icall_funcs.getD i "" = "ves_icall_InternalInvoke_raw" ↔
        corlib_icall_indexes.getD i 0 ∈ ([9951, 9991] : List Int))) ∧
    (∀ t ∈ ([9878, 9907, 9940, 10006, 10081] : List Int), t ∈ corlib_icall_indexes) ∧
    (∀ t ∈ ([9951, 9991] : List Int), t ∈ corlib_icall_indexes) := by
  refine ⟨?_, by decide, by decide, fun i hi => (corlib_shared_tokens_at i hi).1,
    fun i hi => (corlib_shared_tokens_at i hi).2, by decide, by decide⟩
  intro i j hi hj h
  rcases Nat.lt_trichotomy i j with hlt | heq | hgt
  · exact Or.inr (corlib_funcs_shared_lt i j hlt hj h)
  · exact Or.inl heq
  · have := corlib_funcs_shared_lt j i hgt hi h.symm
    rw [← h] at this
    exact Or.inr this

theorem C6_shared_routines_only_witness :
    ((168 : Nat) = 176 ∨
      corlib_icall_funcs.getD 168 "" = "ves_icall_reflection_get_token_raw" ∨
      corlib_icall_funcs.getD 168 "" = "ves_icall_InternalInvoke_raw") ∧
    corlib_icall_indexes.getD 168 0 ∈ ([9951, 9991] : List Int) :=
  ⟨C6_shared_routines_only.1 168 176 (by decide) (by decide) (by decide),
    (C6_shared_routines_only.2.2.2.2.1 168 (by decide)).mp (by decide)⟩

/-- Claim C7. For every position whose flag is 4 (Raw), the header has a
prototype for the routine stored there, and every prototype of that routine
uses primitive scalar types only: each parameter is `int`, `int64_t` or
`double`, and the return type is one of these or `void`. -/
theorem C7_raw_prototypes_scalar (i : Nat) (hi : i < 203) :
    corlib_icall_flags.getD i 0 = 4 →
    (∃ p ∈ corlib_icall_prototypes, p.name = corlib_icall_funcs.getD i "") ∧
    ∀ p ∈ corlib_icall_prototypes, p.name = corlib_icall_funcs.getD i "" →
      p.scalar_only = true ∧
      (∀ ty ∈ p.params, ty = CType.int ∨ ty = CType.int64_t ∨ ty = CType.double) ∧
      (p.ret = CType.int ∨ p.ret = CType.int64_t ∨ p.ret = CType.double ∨
        p.ret = CType.void) := by
  intro _
  refine ⟨corlib_funcs_declared i hi, ?_⟩
  intro p hp _
  have hs : p.scalar_only = true := List.all_eq_true.mp corlib_prototypes_scalar p hp
  refine ⟨hs, ?_, ?_⟩
  · intro ty hty
    simp only [Proto.scalar_only, Bool.and_eq_true, List.all_eq_true] at hs
    have := hs.2 ty hty
    cases ty <;> simp_all [CType.scalar]
  · cases p.ret <;> simp

theorem C7_raw_prototypes_scalar_witness :
    corlib_icall_flags.getD 5 0 = 4 ∧
    corlib_icall_funcs.getD 5 "" = "ves_icall_System_Array_GetLengthInternal_raw" ∧
    (⟨CType.int, "ves_icall_System_Array_GetLengthInternal_raw",
      [CType.int, CType.int, CType.int]⟩ : Proto).scalar_only = true :=
  ⟨by decide, by decide,
    ((C7_raw_prototypes_scalar 5 (by decide) (by decide)).2
      ⟨CType.int, "ves_icall_System_Array_GetLengthInternal_raw",
        [CType.int, CType.int, CType.int]⟩ (by simp [corlib_icall_prototypes]) (by decide)).1⟩

/-- Claim C8. For every integer token `t`, binary search over
`corlib_icall_indexes` gives the same result (the same position, or NotFound)
as a linear left-to-right scan for `t`; the two agree on every strictly
ascending token list. -/
theorem C8_bsearch_eq_linear_scan :
    (∀ t : Int, resolve_index corlib_icall_indexes t = linear_scan corlib_icall_indexes t) ∧
    (∀ tokens : List Int, List.Chain' (· < ·) tokens →
      ∀ t : Int, resolve_index tokens t = linear_scan tokens t) :=
  ⟨resolve_index_eq_linear_scan _ corlib_indexes_pairwise,
    fun tokens h => resolve_index_eq_linear_scan tokens (chain_pairwise tokens h)⟩

theorem C8_bsearch_eq_linear_scan_witness :
    resolve_index [100, 200, 305] 200 = Outcome.found 1 ∧
    linear_scan [100, 200, 305] 200 = Outcome.found 1 ∧
    resolve_index [100, 200, 305] 150 = linear_scan [100, 200, 305] 150 :=
  ⟨by decide, by decide, C8_bsearch_eq_linear_scan.2 [100, 200, 305] (by simp) 150⟩

/-- Claim C9. Construction of the entry store from a list of
`(token, native_entry, flags)` tuples fails exactly when the tokens are not
strictly increasing, or a native entry is null, or a flag is neither 0 nor 4;
a construction that succeeds yields the whole table, one entry per tuple (so a
failure never leaves a shorter table), and construction succeeds on the
shipped corlib tables. -/
theorem C9_construct_fails_iff_invalid :
    (∀ l : List Tuple,
      (∃ e, construct l = Except.error e) ↔
        (¬ List.Chain' (· < ·) (l.map (fun x => x.token)) ∨
          (∃ x ∈ l, x.native_entry = none) ∨
          (∃ x ∈ l, x.flags ≠ 0 ∧ x.flags ≠ 4))) ∧
    (∀ l : List Tuple, (∃ e, construct l = Except.error e) ∨
      (∃ s, construct l = Except.ok s ∧
        s.indexes = l.map (fun x => x.token) ∧
        s.funcs.map some = l.map (fun x => x.native_entry) ∧
        s.flags = l.map (fun x => x.flags) ∧
        s.count = l.length)) ∧
    corlib_tuples.length = 203 ∧
    construct corlib_tuples = Except.ok corlib := by
  refine ⟨?_, ?_, ?_, ?_⟩
  · intro l
    rcases construct_from_spec l none with ⟨s, hs, hc, hn, hf, _⟩ | ⟨e, he, hbad⟩
    · constructor
      · rintro ⟨e, he⟩
        rw [construct, hs] at he
        cases he
      · rintro (hb | ⟨x, hx, hb⟩ | ⟨x, hx, hb⟩)
        · exact absurd (by simpa using hc) hb
        · exact absurd hb (hn x hx)
        · rcases hf x hx with h | h <;> omega
    · constructor
      · intro _
        simpa using hbad
      · intro _
        exact ⟨e, he⟩
  · intro l
    rcases construct_from_spec l none with ⟨s, hs, _, _, _, e1, e2, e3⟩ | ⟨e, he, _⟩
    · exact Or.inr ⟨s, hs, e1, e2, e3, by simp [EntryStore.count, e1]⟩
    · exact Or.inl ⟨e, he⟩
  · decide
  · rfl

theorem C9_construct_fails_iff_invalid_witness :
    construct [⟨200, some "fnB", 4⟩, ⟨100, some "fnA", 0⟩] = Except.error BuildError.unsorted ∧
    construct [⟨100, none, 0⟩] = Except.error BuildError.null_entry ∧
    construct [⟨100, some "fnA", 2⟩] = Except.error BuildError.bad_flag ∧
    ∃ e, construct [⟨100, some "fnA", 0⟩, ⟨200, some "fnB", 4⟩, ⟨150, some "fnC", 0⟩]
      = Except.error e :=
  ⟨rfl, rfl, rfl,
    (C9_construct_fails_iff_invalid.1
      [⟨100, some "fnA", 0⟩, ⟨200, some "fnB", 4⟩, ⟨150, some "fnC", 0⟩]).mpr
      (Or.inl (by simp))⟩

/-- Claim C10. Every token of `corlib_icall_indexes` lies in `[0, 2^31)`, hence
in the unsigned 32-bit range; read as an unsigned 32-bit value it keeps its
value, and the order of any two tokens is unchanged. -/
theorem C10_tokens_fit_uint32 :
    (∀ t ∈ corlib_icall_indexes, 0 ≤ t ∧ t < 2 ^ 31 ∧ t < 2 ^ 32 ∧ (as_uint32 t : Int) = t) ∧
    (∀ s ∈ corlib_icall_indexes, ∀ t ∈ corlib_icall_indexes,
      (s < t ↔ as_uint32 s < as_uint32 t)) := by
  have h : corlib_icall_indexes.all (fun t => decide (0 ≤ t ∧ t < 2 ^ 31)) = true := by decide
  have hr : ∀ t ∈ corlib_icall_indexes, 0 ≤ t ∧ t < 2 ^ 31 := fun t ht =>
    of_decide_eq_true (List.all_eq_true.mp h t ht)
  have hv : ∀ t ∈ corlib_icall_indexes, (as_uint32 t : Int) = t := by
    intro t ht
    obtain ⟨h0, h1⟩ := hr t ht
    unfold as_uint32
    rw [Int.emod_eq_of_lt h0 (by omega), Int.toNat_of_nonneg h0]
  refine ⟨fun t ht => ⟨(hr t ht).1, (hr t ht).2, by have := (hr t ht).2; omega, hv t ht⟩, ?_⟩
  intro s hs t ht
  have e1 := hv s hs
  have e2 := hv t ht
  constructor
  · intro hlt
    have : (as_uint32 s : Int) < (as_uint32 t : Int) := by rw [e1, e2]; exact hlt
    exact_mod_cast this
  · intro hlt
    have : (as_uint32 s : Int) < (as_uint32 t : Int) := by exact_mod_cast hlt
    rwa [e1, e2] at this
theorem C10_tokens_fit_uint32_witness :
    (0 : Int) ≤ 12837 ∧ (12837 : Int) < 2 ^ 31 ∧ (12837 : Int) < 2 ^ 32 ∧
      (as_uint32 12837 : Int) = 12837 :=
  C10_tokens_fit_uint32.1 12837 (by decide)

/-- Claim C11. Invoking a Wrapped entry (flag 0) whose native routine raises a
managed-level error hands exactly that error to the caller: the result is the
propagated error itself, never a returned value, a crash or another error.
This holds in particular for the Wrapped entry `fnA` of the three-entry table
of the spec. -/
theorem C11_wrapped_error_propagates (α ε : Type) (e : Entry)
    (routine : List α → NativeResult α ε) (args : List α) (err : ε)
    (hflag : e.flags = 0) (hraise : routine args = NativeResult.raised err) :
    invoke e routine args = InvokeResult.propagated err ∧
    (∀ err2 : ε, invoke e routine args = InvokeResult.propagated err2 → err2 = err) ∧
    (resolve scenario_table 100 = Outcome.found ⟨100, "fnA", FLAG_WRAPPED⟩ ∧
      invoke ⟨100, "fnA", FLAG_WRAPPED⟩ routine args = InvokeResult.propagated err) := by
  have key : ∀ e2 : Entry, e2.flags = 0 →
      invoke e2 routine args = InvokeResult.propagated err := by
    intro e2 h2
    have hw : e2.flags = FLAG_WRAPPED := h2
    simp only [invoke, if_pos hw, hraise]
  refine ⟨key e hflag, ?_, by decide, key _ rfl⟩
  intro err2 h2
  rw [key e hflag] at h2
  injection h2 with h2
  exact h2.symm

theorem C11_wrapped_error_propagates_witness :
    invoke (⟨216, "ves_icall_System_Array_InternalCreate", 0⟩ : Entry)
      (fun _ : List Int => (NativeResult.raised "OutOfMemoryException" : NativeResult Int String))
      [1, 2, 3, 4, 5] = InvokeResult.propagated "OutOfMemoryException" :=
  (C11_wrapped_error_propagates Int String ⟨216, "ves_icall_System_Array_InternalCreate", 0⟩
    (fun _ => NativeResult.raised "OutOfMemoryException") [1, 2, 3, 4, 5]
    "OutOfMemoryException" rfl rfl).1

/-- Claim C12. The pointer table is positionally aligned with the token table:
there are 203 `// token N` comments, the `i`-th stands right before the `i`-th
element of `corlib_icall_funcs`, and its `N` is `corlib_icall_indexes[i]`. -/
theorem C12_token_comments_match_indexes :
    corlib_icall_funcs_annotated.length = 203 ∧
    ∀ i : Nat, i < 203 →
      (corlib_icall_funcs_annotated.getD i (0, "")).2 = corlib_icall_funcs.getD i "" ∧
      (corlib_icall_funcs_annotated.getD i (0, "")).1 = corlib_icall_indexes.getD i 0 := by
  refine ⟨by decide, ?_⟩
  intro i _
  have h1 := List.getD_map (n := i) (d := ((0, "") : Int × String))
    (f := fun a : Int × String => a.2) (l := corlib_icall_funcs_annotated)
  have h2 := List.getD_map (n := i) (d := ((0, "") : Int × String))
    (f := fun a : Int × String => a.1) (l := corlib_icall_funcs_annotated)
  rw [corlib_annotated_funcs] at h1
  rw [corlib_annotated_tokens] at h2
  exact ⟨h1.symm, h2.symm⟩

theorem C12_token_comments_match_indexes_witness :
    (corlib_icall_funcs_annotated.getD 202 (0, "")).2 = corlib_icall_funcs.getD 202 "" ∧
    (corlib_icall_funcs_annotated.getD 202 (0, "")).1 = corlib_icall_indexes.getD 202 0 :=
  C12_token_comments_match_indexes.2 202 (by decide)

/-- Claim C13. The flag of an entry is determined by the name of its native
routine: at every position the flag is 4 exactly when the symbol ends with
`_raw`, and 0 otherwise; hence two positions that hold the same routine carry
the same flag. -/
theorem C13_flag_determined_by_name :
    (∀ i : Nat, i < 203 →
      (corlib_icall_flags.getD i 0 = 4 ↔
        ends_with (corlib_icall_funcs.getD i "") "_raw" = true) ∧
      (ends_with (corlib_icall_funcs.getD i "") "_raw" = false →
        corlib_icall_flags.getD i 0 = 0)) ∧
    (∀ i j : Nat, i < 203 → j < 203 →
      corlib_icall_funcs.getD i "" = corlib_icall_funcs.getD j "" →
      corlib_icall_flags.getD i 0 = corlib_icall_flags.getD j 0) := by
  refine ⟨?_, corlib_flag_of_same_name⟩
  intro i hi
  obtain ⟨h1, h2⟩ := corlib_flag_by_name_at i hi
  refine ⟨h1, ?_⟩
  intro hn
  rcases h2 with h4 | h0
  · rw [h1.mp h4] at hn
    cases hn
  · exact h0

theorem C13_flag_determined_by_name_witness :
    corlib_icall_flags.getD 151 0 = corlib_icall_flags.getD 159 0 :=
  C13_flag_determined_by_name.2 151 159 (by decide) (by decide) (by decide)

/-- Claim C14. Every Raw entry takes at least one argument and is integer-only:
at a position whose flag is 4, each prototype of the routine stored there has
one or more parameters, all of type `int`, and returns `int` or `void`.
Equivalently, a routine whose prototype has no parameters, or a `double` or
`int64_t` parameter, or a `double` or `int64_t` return, has flag 0. -/
theorem C14_raw_entries_integer_only (i : Nat) (hi : i < 203) :
    (corlib_icall_flags.getD i 0 = 4 →
      prototype_at i ∈ corlib_icall_prototypes ∧
      (prototype_at i).name = corlib_icall_funcs.getD i "" ∧
      ∀ p ∈ corlib_icall_prototypes, p.name = corlib_icall_funcs.getD i "" →
        p.params ≠ [] ∧ (∀ ty ∈ p.params, ty = CType.int) ∧
        (p.ret = CType.int ∨ p.ret = CType.void)) ∧
    (∀ p ∈ corlib_icall_prototypes, p.name = corlib_icall_funcs.getD i "" →
      (p.params = [] ∨ (∃ ty ∈ p.params, ty = CType.double ∨ ty = CType.int64_t) ∨
        p.ret = CType.double ∨ p.ret = CType.int64_t) →
      corlib_icall_flags.getD i 0 = 0) := by
  constructor
  · intro hraw
    refine ⟨prototype_at_mem i hi, prototype_at_name i, ?_⟩
    intro p hp hn
    exact integer_only_spec p (corlib_raw_prototype i hi hraw p hp hn)
  · intro p hp hn hcond
    rcases (corlib_flag_by_name_at i hi).2 with h4 | h0
    · obtain ⟨hne, hall, hret⟩ := integer_only_spec p (corlib_raw_prototype i hi h4 p hp hn)
      rcases hcond with hc | ⟨ty, hty, hc⟩ | hc | hc
      · exact absurd hc hne
      · have := hall ty hty
        rcases hc with hc | hc <;> rw [this] at hc <;> cases hc
      · rcases hret with hr | hr <;> rw [hr] at hc <;> cases hc
      · rcases hret with hr | hr <;> rw [hr] at hc <;> cases hc
    · exact h0

theorem C14_raw_entries_integer_only_witness :
    corlib_icall_flags.getD 5 0 = 4 ∧
    (prototype_at 5).name = "ves_icall_System_Array_GetLengthInternal_raw" ∧
    (prototype_at 5).params = [CType.int, CType.int, CType.int] ∧
    ((prototype_at 5).params ≠ [] ∧ (∀ ty ∈ (prototype_at 5).params, ty = CType.int) ∧
      ((prototype_at 5).ret = CType.int ∨ (prototype_at 5).ret = CType.void)) :=
  ⟨by decide, by decide, by decide,
    ((C14_raw_entries_integer_only 5 (by decide)).1 (by decide)).2.2 (prototype_at 5)
      ((C14_raw_entries_integer_only 5 (by decide)).1 (by decide)).1
      ((C14_raw_entries_integer_only 5 (by decide)).1 (by decide)).2.1⟩

/-- Claim C15. The prototype list is positionally aligned with the pointer
table: the header has exactly 203 prototypes, and the `i`-th prototype in file
order declares the function named by `corlib_icall_funcs[i]`. -/
theorem C15_prototypes_aligned_with_funcs :
    prototypes_of icall_table_h = corlib_icall_prototypes ∧
    (prototypes_of icall_table_h).length = 203 ∧
    corlib_icall_funcs.length = 203 ∧
    ∀ i : Nat, i < 203 →
      ((prototypes_of icall_table_h).getD i ⟨CType.void, "", []⟩).name
        = corlib_icall_funcs.getD i "" := by
  have h : prototypes_of icall_table_h = corlib_icall_prototypes := by
    have e := prototypes_of_map corlib_icall_prototypes
      [Decl.ptr_array "corlib_icall_funcs" corlib_icall_funcs,
        Decl.byte_array "corlib_icall_flags" corlib_icall_flags]
    have e2 : prototypes_of [Decl.ptr_array "corlib_icall_funcs" corlib_icall_funcs,
        Decl.byte_array "corlib_icall_flags" corlib_icall_flags] = [] := rfl
    rw [e2, List.append_nil] at e
    exact e
  refine ⟨h, by rw [h]; exact corlib_prototypes_length, corlib_funcs_length, ?_⟩
  intro i _
  rw [h]
  exact prototype_at_name i

theorem C15_prototypes_aligned_with_funcs_witness :
    ((prototypes_of icall_table_h).getD 202 ⟨CType.void, "", []⟩).name
      = corlib_icall_funcs.getD 202 "" :=
  C15_prototypes_aligned_with_funcs.2.2.2 202 (by decide)

/-- Claim C16. Repeated prototypes are consistent: two prototypes of the header
that declare the same function name have the same return type and the same
parameter types.  The repeated names are `ves_icall_reflection_get_token_raw`
(five prototypes, `int (int,int)`) and `ves_icall_InternalInvoke_raw` (two
prototypes, `int (int,int,int,int,int)`). -/
theorem C16_repeated_prototypes_consistent :
    (∀ p ∈ corlib_icall_prototypes, ∀ q ∈ corlib_icall_prototypes,
      p.name = q.name → p.ret = q.ret ∧ p.params = q.params) ∧
    corlib_icall_prototypes.count
      ⟨CType.int, "ves_icall_reflection_get_token_raw", [CType.int, CType.int]⟩ = 5 ∧
    corlib_icall_prototypes.count
      ⟨CType.int, "ves_icall_InternalInvoke_raw",
        [CType.int, CType.int, CType.int, CType.int, CType.int]⟩ = 2 ∧
    (corlib_icall_prototypes.map (fun p => p.name)).count
      "ves_icall_reflection_get_token_raw" = 5 ∧
    (corlib_icall_prototypes.map (fun p => p.name)).count
      "ves_icall_InternalInvoke_raw" = 2 := by
  refine ⟨?_, by decide, by decide, ?_, ?_⟩
  · intro p hp q hq h
    rw [corlib_same_name_same_prototype p q hp hq h]
    exact ⟨rfl, rfl⟩
  · rw [corlib_prototype_names]
    decide
  · rw [corlib_prototype_names]
    decide

theorem C16_repeated_prototypes_consistent_witness :
    (prototype_at 151).name = (prototype_at 159).name ∧
    (prototype_at 151).ret = (prototype_at 159).ret ∧
    (prototype_at 151).params = (prototype_at 159).params :=
  ⟨by decide, C16_repeated_prototypes_consistent.1 (prototype_at 151) (by decide)
    (prototype_at 159) (by decide) (by decide)⟩

end IcallTable
